import Mathlib

/-!
# Verification of the PUNoted production-planner core

A shallow embedding, in Lean 4, of `src/simulation/production_planner.py`
(together with the data model of `src/simulation/data_models.py`), and
theorems settling the frozen claims about it.

Modelling conventions:
* Python `float` values are modelled as `ℚ`.  `float('inf')` only ever
  appears as a sentinel cost, so costs are modelled as `Option ℚ` with
  `none` standing for `float('inf')`; the comparison helpers `pyLeOpt` /
  `pyLtOptR` reproduce IEEE comparisons against infinity.
* Python `dict`s preserve insertion order, so they are modelled as
  association lists (`List (String × α)`), looked up with `List.lookup`.
* `random.choice` / `random.shuffle` consume draws from an explicit
  stream of naturals (`RNG`), `uuid.uuid4()` consumes an explicit stream
  of strings, and `time.time()*1000` is an explicit `now : Int`
  parameter: these are the ambient, non-deterministic inputs of the
  Python code, made explicit.
* The mutable `simulation_log : List[str]` is an append-only trace that
  no control decision ever reads; it is not modelled.
* The single statement that can raise for a domain-level gap
  (`initial_state.static_buildings.get(t).area` with `t` missing, line
  655) is modelled with `Except`, everything else is total exactly as in
  the source.
-/

/- The kernel reduces the Batteries rational primitives fine; they are
only `@[irreducible]` to keep `simp` from unfolding them.  Concrete
evaluations below go through `decide`, which needs them transparent. -/
attribute [local semireducible] Rat.mul Rat.inv Rat.add Rat.sub

namespace PUNoted

/-! ## Python-style helpers -/

/-- `a <= b` on costs where `none` stands for `float('inf')`
(`inf <= inf` is `True` in Python). -/
def pyLeOpt : Option ℚ → Option ℚ → Bool
  | none, none => true
  | none, some _ => false
  | some _, none => true
  | some x, some y => x ≤ y

/-- `x < b` where `b = none` stands for `float('inf')`. -/
def pyLtOptR (x : ℚ) : Option ℚ → Bool
  | none => true
  | some y => x < y

/-- Truthiness of a Python `Optional[str]`: `None` and `""` are falsy. -/
def strOptTruthy : Option String → Bool
  | none => false
  | some s => s ≠ ""

/-- `x if x else y` for Python optional strings. -/
def pyOrOptStr (a b : Option String) : Option String :=
  if strOptTruthy a then a else b

/-- `d[k] = d.get(k, 0.0) + v` on an insertion-ordered dict: update in
place if the key exists, else append at the end. -/
def updAssoc (l : List (String × ℚ)) (k : String) (v : ℚ) : List (String × ℚ) :=
  if (l.lookup k).isSome then
    l.map (fun e => if e.1 == k then (e.1, e.2 + v) else e)
  else
    l ++ [(k, v)]

/-- Replace the value stored under key `k` (no-op if absent). -/
def assocUpdate {α : Type} (l : List (String × α)) (k : String) (v : α) :
    List (String × α) :=
  l.map (fun e => if e.1 == k then (e.1, v) else e)

/-- Stable insertion into a list sorted by a rational key (keeps the
original order of equal keys, like Python's stable `list.sort`). -/
def stableInsert {α : Type} (key : α → ℚ) (x : α) : List α → List α
  | [] => [x]
  | y :: ys => if key x < key y then x :: y :: ys else y :: stableInsert key x ys

/-- Stable sort by a rational key, modelling Python's `list.sort(key=...)`. -/
def stableSortByKey {α : Type} (key : α → ℚ) : List α → List α
  | [] => []
  | x :: xs => stableInsert key x (stableSortByKey key xs)

/-! ## Ambient-input models: RNG stream, uuid stream -/

/-- The seeded random source: a stream of natural draws. -/
abbrev RNG : Type := List Nat

/-- Take one draw (0 if the stream is exhausted). -/
def rngNext (rng : RNG) : Nat × RNG := (rng.headD 0, rng.drop 1)

/-- `random.choice(l)`: pick the element indexed by the next draw.
Call sites only use it on non-empty lists. -/
def randChoice {α : Type} (l : List α) (rng : RNG) : Option α × RNG :=
  let (d, rng') := rngNext rng
  (l.get? (d % l.length), rng')

/-- Worker for `randShuffle`, structurally recursive on a fuel equal to
the length of the list. -/
def randShuffleGo {α : Type} : Nat → List α → RNG → List α × RNG
  | 0, l, rng => (l, rng)
  | n + 1, l, rng =>
    if l.isEmpty then (l, rng)
    else
      let (d, rng1) := rngNext rng
      let i := d % l.length
      match l.get? i with
      | some x =>
        let (rest, rng2) := randShuffleGo n (l.eraseIdx i) rng1
        (x :: rest, rng2)
      | none => (l, rng1)

/-- `random.shuffle(l)`: a draw-indexed permutation of `l`, consuming
one draw per element. -/
def randShuffle {α : Type} (l : List α) (rng : RNG) : List α × RNG :=
  randShuffleGo l.length l rng

/-- Uppercase via the character list (kernel-reducible equivalent of
`String.toUpper`). -/
def pyUpper (s : String) : String := ⟨s.data.map Char.toUpper⟩

/-- First `n` characters (kernel-reducible equivalent of `String.take`). -/
def pyTake (s : String) (n : ℕ) : String := ⟨s.data.take n⟩

/-- `f"NEW_SITE_{str(uuid.uuid4())[:8].upper()}"` applied to one drawn
uuid string. -/
def siteIdFromUuid (u : String) : String :=
  "NEW_SITE_" ++ pyUpper (pyTake u 8)

/-! ## Data model (fields the planner reads, from `data_models.py`) -/

/-- `Material` (fields used by the planner). -/
structure Material where
  MaterialId : String
  MaterialTicker : String
deriving DecidableEq, Repr

structure RecipeInput where
  MaterialTicker : String
  Amount : ℚ
deriving DecidableEq, Repr

structure RecipeOutput where
  MaterialTicker : String
  Amount : ℚ
deriving DecidableEq, Repr

structure Recipe where
  StandardRecipeName : String
  BuildingTicker : String
  RecipeName : String
  DurationMs : ℚ
  Inputs : List RecipeInput
  Outputs : List RecipeOutput
deriving DecidableEq, Repr

/-- `BuildingCostItem` (fields used). -/
structure BuildingCostItem where
  MaterialTicker : String
  Amount : ℚ
deriving DecidableEq, Repr

/-- Static building definition.  `area` is annotated `int` in the
dataclass but the planner defensively checks it for `None`
(lines 656, 686, 899, 971), so it is modelled as `Option ℚ`. -/
structure Building where
  ticker : String
  name : String
  area : Option ℚ
  expertise : Option String
deriving DecidableEq, Repr

/-- Entry of `static_building_workforces` (fields used at lines 819-821). -/
structure BuildingWorkforce where
  workforce_type_name : String
  capacity_needed : ℚ
deriving DecidableEq, Repr

structure HousingWorkforce where
  WorkforceTypeTicker : String
  capacity : ℚ
deriving DecidableEq, Repr

/-- `ProductionOrder` (fields used by `calculate_current_production`). -/
structure ProductionOrder where
  ProductionLineOrderId : String
  BuildingId : Option String
  StandardRecipeName : String
  CompletionEpochMs : Option Int
  DurationMs : ℚ
  IsHalted : Bool
deriving DecidableEq, Repr

/-- `BuildingInstance` (fields used). -/
structure BuildingInstance where
  SiteBuildingId : String
  BuildingTicker : String
deriving DecidableEq, Repr

/-- `Site` (fields used); `Buildings` is an insertion-ordered dict. -/
structure Site where
  SiteId : String
  PlanetName : String
  Buildings : List (String × BuildingInstance)
deriving DecidableEq, Repr

structure MarketData where
  MaterialTicker : String
  PriceAverage : Option ℚ
  Ask : Option ℚ
  Bid : Option ℚ
deriving DecidableEq, Repr

structure CompanyHQ where
  PlanetId : Option String
deriving DecidableEq, Repr

/-- `Company` (fields used); `hq` is modelled optional because the
orchestrator guards `if initial_state.company.hq` (line 617). -/
structure Company where
  hq : Option CompanyHQ
  sites : List Site
  production_orders : List (String × ProductionOrder)
deriving DecidableEq, Repr

structure Resource where
  MaterialId : String
  ResourceType : String
  Factor : ℚ
deriving DecidableEq, Repr

structure COGCProgram where
  ProgramType : Option String
  StartEpochMs : Int
  EndEpochMs : Int
deriving DecidableEq, Repr

/-- `PlanetData` (fields used by the planner). -/
structure PlanetData where
  PlanetId : String
  PlanetName : String
  Fertility : ℚ
  Resources : List Resource
  COGCPrograms : List COGCProgram
  COGCProgramStatus : Option String
  HasLocalMarket : Bool
  HasChamberOfCommerce : Bool
deriving DecidableEq, Repr

/-- `SimulationState` (fields the planner reads).  `all_planets_data` is
annotated as a dict in the dataclass but is built and consumed as a
`List[PlanetData]` (see `data_loader.py` line 209 and every use in
`production_planner.py`). -/
structure SimulationState where
  company : Company
  static_materials : List (String × Material)
  static_buildings : List (String × Building)
  static_recipes : List (String × Recipe)
  static_building_costs : List (String × List BuildingCostItem)
  static_building_workforces : List (String × List BuildingWorkforce)
  dynamic_market_data : List MarketData
  all_planets_data : List PlanetData
deriving DecidableEq, Repr

/-! ## Output records -/

structure RecommendedBuilding where
  building_ticker : String
  building_name : String
  amount_to_build : ℕ
  estimated_cost_credits : ℚ
  planet_id : Option String
  site_id : Option String
deriving DecidableEq, Repr

structure RecommendedPlanet where
  planet_id : String
  planet_name : String
  fertility : Option ℚ
  resources : List Resource
  total_estimated_cost_credits_on_planet : ℚ
  total_estimated_workforce_needed_on_planet : List (String × ℚ)
  recommended_buildings_on_planet : List RecommendedBuilding
  site_id : Option String
deriving DecidableEq, Repr

/-- `Recommendation` (the trace log field is not modelled). -/
structure Recommendation where
  desired_material_ticker : String
  target_production_rate_units_per_day : ℚ
  current_production_units_per_day : ℚ
  production_gap_units_per_day : ℚ
  recommended_planets : List RecommendedPlanet
  total_estimated_cost_credits : ℚ
deriving DecidableEq, Repr

/-! ## Constants (`production_planner.py` lines 16-68) -/

def MS_IN_DAY : ℚ := 24 * 60 * 60 * 1000

def BASE_MAX_AREA_FIRST_PERMIT : ℚ := 500
def ADDITIONAL_AREA_PER_PERMIT : ℚ := 250
def MAX_ADDITIONAL_PERMITS : ℕ := 2
def PERMIT_COST : ℚ := 50000
def SITE_BASE_AREA_COST : ℚ := 25

/-- The hard-coded `HOUSING_BUILDING` catalog (source order). -/
def HOUSING_BUILDING : List (String × List HousingWorkforce) :=
  [("HB1", [⟨"PIONEER", 100⟩]),
   ("HB2", [⟨"SETTLER", 100⟩]),
   ("HB3", [⟨"TECHNICIAN", 100⟩]),
   ("HB4", [⟨"ENGINEER", 100⟩]),
   ("HB5", [⟨"SCIENTIST", 100⟩]),
   ("HBB", [⟨"PIONEER", 75⟩, ⟨"SETTLER", 75⟩]),
   ("HBC", [⟨"SETTLER", 75⟩, ⟨"TECHNICIAN", 75⟩]),
   ("HBM", [⟨"TECHNICIAN", 75⟩, ⟨"ENGINEER", 75⟩]),
   ("HBL", [⟨"ENGINEER", 75⟩, ⟨"SCIENTIST", 75⟩])]

/-! ## `calculate_current_production` (lines 73-142) -/

/-- Units/day a single production order contributes for `ticker`
(the body of the `for order ...` loop, lines 121-136). -/
def orderProduction (st : SimulationState) (ticker : String)
    (order : ProductionOrder) : ℚ :=
  if !order.IsHalted && order.CompletionEpochMs.isSome then
    match st.static_recipes.lookup order.StandardRecipeName with
    | none => 0
    | some recipe =>
      (recipe.Outputs.filterMap (fun o =>
        if o.MaterialTicker == ticker then
          if order.DurationMs > 0 then some (o.Amount * (MS_IN_DAY / order.DurationMs))
          else none
        else none)).sum
  else 0

/-- Units/day one building instance contributes (lines 104-136): orders
are matched by `order.BuildingId == building.SiteBuildingId`, and the
building definition must exist in the static catalog. -/
def buildingProduction (st : SimulationState) (ticker : String)
    (b : BuildingInstance) : ℚ :=
  match st.static_buildings.lookup b.BuildingTicker with
  | none => 0
  | some _ =>
    ((st.company.production_orders.map (·.2)).filter
        (fun o => o.BuildingId == some b.SiteBuildingId)).foldl
      (fun acc o => acc + orderProduction st ticker o) 0

/-- `calculate_current_production`: current units/day of `ticker`
across all company sites, optionally filtered to one site. -/
def calculate_current_production (st : SimulationState) (ticker : String)
    (target_site_id : Option String) : ℚ :=
  (st.company.sites.filter (fun s =>
      match target_site_id with
      | some t => if t == "" then true else s.SiteId == t
      | none => true)).foldl
    (fun acc s =>
      acc + (s.Buildings.map (·.2)).foldl
        (fun acc2 b => acc2 + buildingProduction st ticker b) 0) 0

/-! ## `find_best_recipe_and_building` (lines 144-174) -/

def find_best_recipe_and_building (static_recipes : List (String × Recipe))
    (static_buildings : List (String × Building)) (desired : String)
    (preferred_recipe_ticker preferred_building_ticker : Option String) :
    Option (Recipe × String) :=
  let viaPreferred : Option (Recipe × String) :=
    if strOptTruthy preferred_recipe_ticker && strOptTruthy preferred_building_ticker then
      match preferred_recipe_ticker, preferred_building_ticker with
      | some prt, some pbt =>
        match static_recipes.lookup prt, static_buildings.lookup pbt with
        | some pr, some _pb =>
          if pr.Outputs.any (fun o => o.MaterialTicker == desired) &&
             pr.BuildingTicker == pbt then
            some (pr, pbt)
          else none
        | _, _ => none
      | _, _ => none
    else none
  match viaPreferred with
  | some r => some r
  | none =>
    static_recipes.findSome? (fun e =>
      if e.2.Outputs.any (fun o => o.MaterialTicker == desired) then
        if e.2.BuildingTicker != "" &&
           (static_buildings.lookup e.2.BuildingTicker).isSome then
          some (e.2, e.2.BuildingTicker)
        else none
      else none)

/-! ## Category classifiers (lines 176-221) -/

/-- Keep the first occurrence of each element (models the Python `set`
of producing building tickers; the Python set's iteration order is
unspecified, recipe order is taken as the canonical order). -/
def dedupKeepFirst (l : List String) : List String :=
  l.foldl (fun acc t => if acc.contains t then acc else acc ++ [t]) []

/-- `_get_material_production_category`. -/
def getMaterialProductionCategory (ticker : String)
    (static_recipes : List (String × Recipe))
    (static_buildings : List (String × Building)) : Option String :=
  let producing := dedupKeepFirst ((static_recipes.map (·.2)).filterMap (fun r =>
    if r.Outputs.any (fun o => o.MaterialTicker == ticker) then
      if r.BuildingTicker != "" then some r.BuildingTicker else none
    else none))
  producing.findSome? (fun bt =>
    match static_buildings.lookup bt with
    | some bdef =>
      match bdef.expertise with
      | some e => if e != "" then some (pyUpper e) else none
      | none => none
    | none => none)

/-- `_get_building_expertise_category`. -/
def getBuildingExpertiseCategory (building_ticker : String)
    (static_buildings : List (String × Building)) : Option String :=
  match static_buildings.lookup building_ticker with
  | some bdef =>
    match bdef.expertise with
    | some e => if e != "" then some (pyUpper e) else none
    | none => none
  | none => none

/-! ## `find_best_expansion_planet` (lines 224-351) -/

/-- One COGC program of `p` matches `expected` and covers `now`, with
the planet's program status ACTIVE (the body of the `any`). -/
def hasActiveProgram (p : PlanetData) (expected : String) (now : Int) : Bool :=
  p.COGCPrograms.any (fun prog =>
    prog.ProgramType == some expected &&
    prog.StartEpochMs ≤ now && now ≤ prog.EndEpochMs &&
    p.COGCProgramStatus == some "ACTIVE")

/-- First recipe (catalog order) whose building is `bt` and whose output
list is non-empty: the material that building extracts. -/
def extractedMaterialTicker (static_recipes : List (String × Recipe))
    (bt : String) : Option String :=
  (static_recipes.map (·.2)).findSome? (fun r =>
    if r.BuildingTicker == bt then
      match r.Outputs with
      | o :: _ => some o.MaterialTicker
      | [] => none
    else none)

/-- `MaterialId` of the first static material with the given ticker. -/
def materialIdOfTicker (static_materials : List (String × Material))
    (ticker : String) : Option String :=
  (static_materials.map (·.2)).findSome? (fun m =>
    if m.MaterialTicker == ticker then some m.MaterialId else none)

/-- Suitability filter of `find_best_expansion_planet` (lines 242-329). -/
def planetSuitable (static_materials : List (String × Material))
    (static_recipes : List (String × Recipe))
    (desiredType : Option String) (bldgTicker : Option String)
    (expected : Option String) (now : Int) (p : PlanetData) : Bool :=
  if desiredType == some "AGRICULTURE" then
    p.Fertility > 0
  else if desiredType == some "RESOURCE_EXTRACTION" then
    if strOptTruthy bldgTicker then
      let bt := bldgTicker.getD ""
      match extractedMaterialTicker static_recipes bt with
      | some et =>
        match materialIdOfTicker static_materials et with
        | some mid =>
          p.Resources.any (fun r =>
            r.MaterialId == mid && r.Factor > 0 &&
            ((bt == "RIG" && r.ResourceType == "LIQUID") ||
             (bt == "EXT" && r.ResourceType == "MINERAL") ||
             (bt == "COL" && r.ResourceType == "GASEOUS")))
        | none => false
      | none =>
        -- fallback: any resource with positive factor
        p.Resources.any (fun r => r.Factor > 0)
    else
      p.Resources.any (fun r => r.Factor > 0)
  else if desiredType == some "METALURGY" || desiredType == some "REFINING" ||
          desiredType == some "CHEMICAL" || desiredType == some "FOOD_PROCESSING" ||
          desiredType == some "PROCESSED_GOOD" || desiredType == some "RECYCLING" then
    (match expected with
     | some e => hasActiveProgram p e now
     | none => false) ||
    p.HasLocalMarket || p.HasChamberOfCommerce
  else
    true

/-- `find_best_expansion_planet`: filter suitable planets, strictly
prefer those with an active matching COGC program, pick by
`random.choice`. -/
def find_best_expansion_planet (all_planets_data : List PlanetData)
    (static_materials : List (String × Material))
    (static_recipes : List (String × Recipe))
    (desired_production_type : Option String)
    (building_ticker_for_resource_check : Option String)
    (now : Int) (rng : RNG) : Option PlanetData × RNG :=
  let expected : Option String :=
    if strOptTruthy desired_production_type then
      (desired_production_type.map (fun t => "ADVERTISING_" ++ t))
    else none
  let candidates := all_planets_data.filter
    (planetSuitable static_materials static_recipes desired_production_type
      building_ticker_for_resource_check expected now)
  if candidates.isEmpty then (none, rng)
  else
    let preferred := match expected with
      | some e => candidates.filter (fun p => hasActiveProgram p e now)
      | none => []
    if !preferred.isEmpty then randChoice preferred rng
    else randChoice candidates rng

/-! ## `_calculate_material_cost_and_source` (lines 353-580)

The Python function recurses on recipe inputs with `recursion_depth + 1`
and returns immediately once `recursion_depth > max_recursion_depth`,
so the recursion is bounded; it is modelled with a fuel parameter whose
canonical value `max_recursion_depth + 2 - recursion_depth` is
always ≥ 1 when `recursion_depth ≤ max_recursion_depth`, making the
fuel-0 case (defined as the depth-guard result, the same thing the
Python code returns at any depth past the bound) unreachable from
`calcCost`. -/

/-- Result tuple of the resolver.  `cost = none` stands for
`float('inf')`.  The Python code returns the (observationally dead)
value `[]` instead of `None` as the planet id on the intermediate-BUY
path (line 563); both are falsy and the field is only ever
truthiness-tested, so both are modelled as `none`. -/
structure CostResult where
  cost : Option ℚ
  source : String
  subBuildings : List RecommendedBuilding
  planetId : Option String
deriving DecidableEq, Repr

/-- Depth-guard result (lines 372-379): the first market entry's
`PriceAverage` if present, else cannot acquire. -/
def depthGuardResult (st : SimulationState) (ticker : String) : CostResult :=
  match (st.dynamic_market_data.find? (fun md => md.MaterialTicker == ticker)).bind
      (fun md => md.PriceAverage) with
  | some p => ⟨some p, "BUY", [], none⟩
  | none => ⟨none, "UNKNOWN", [], none⟩

/-- BUY price (lines 384-399): ask, else bid, else average, from the
first matching market entry; absence is `float('inf')`. -/
def buyCostOf (market : List MarketData) (ticker : String) : Option ℚ :=
  match market.find? (fun md => md.MaterialTicker == ticker) with
  | none => none
  | some md => (md.Ask.orElse (fun _ => md.Bid)).orElse (fun _ => md.PriceAverage)

/-- Market price used for building-cost items (lines 487-495): ask,
else bid, else average, else 0; 0 if the material has no market entry. -/
def itemPriceFor (market : List MarketData) (ticker : String) : ℚ :=
  match market.find? (fun md => md.MaterialTicker == ticker) with
  | none => 0
  | some md => (((md.Ask.orElse (fun _ => md.Bid)).orElse (fun _ => md.PriceAverage)).getD 0)

/-- One-time construction cost of a building at market prices
(lines 483-496). -/
def constructionCostOf (st : SimulationState) (bt : String) : ℚ :=
  ((st.static_building_costs.lookup bt).getD []).foldl
    (fun acc ci => acc + ci.Amount * itemPriceFor st.dynamic_market_data ci.MaterialTicker) 0

/-- Effective recipe duration after the COGC bonus (lines 498-516): a
single 10% reduction if the production planet has an ACTIVE
`ADVERTISING_<category>` program covering `now`. -/
def effectiveDurationOf (st : SimulationState) (recipe : Recipe)
    (planetFor : Option String) (ticker : String) (now : Int) : ℚ :=
  if strOptTruthy planetFor then
    match st.all_planets_data.find? (fun pd => some pd.PlanetId == planetFor) with
    | some pd =>
      match getMaterialProductionCategory ticker st.static_recipes st.static_buildings with
      | some c =>
        if c != "" && hasActiveProgram pd ("ADVERTISING_" ++ c) now then
          recipe.DurationMs * (9 / 10)
        else recipe.DurationMs
      | none => recipe.DurationMs
    | none => recipe.DurationMs
  else recipe.DurationMs

/-- Accumulator of the best-recipe fold (lines 401-405 plus the
last-written `building_construction_cost`, which the decision code
reads back at lines 551 and 575). -/
structure ProdEval where
  bestCost : Option ℚ
  bestRecipe : Option Recipe
  bestTicker : Option String
  bestSubs : List RecommendedBuilding
  bestPlanet : Option String
  lastConstr : ℚ
deriving DecidableEq, Repr

def ProdEval.init : ProdEval := ⟨none, none, none, [], none, 0⟩

/-- Input-cost loop (lines 451-472): resolve each input via `recur`
(the resolver one level deeper), abort on the first unacquirable input,
accumulate `amount * cost` and the inputs' sub-buildings (re-tagging
sub-buildings that have no planet with the input's production planet,
falling back to this recipe's planet). -/
def evalInputs (recur : String → Option String → RNG → CostResult × RNG)
    (planetFor : Option String) :
    List RecipeInput → RNG → ℚ → List RecommendedBuilding →
    (Option (ℚ × List RecommendedBuilding)) × RNG
  | [], rng, accCost, accSubs => (some (accCost, accSubs), rng)
  | i :: rest, rng, accCost, accSubs =>
    let (res, rng1) := recur i.MaterialTicker planetFor rng
    match res.cost with
    | none => (none, rng1)
    | some c =>
      let fixed := res.subBuildings.map (fun sb =>
        if sb.planet_id = none then
          { sb with planet_id := pyOrOptStr res.planetId planetFor }
        else sb)
      evalInputs recur planetFor rest rng1 (accCost + i.Amount * c) (accSubs ++ fixed)

/-- Recipe loop (lines 413-536): per recipe resolve a production
planet (the preferred one, else ask the planet selector), cost the
inputs, compute the construction cost and the COGC-adjusted duration,
and keep the strictly cheapest per-unit recipe. -/
def evalRecipes (recur : String → Option String → RNG → CostResult × RNG)
    (st : SimulationState) (ticker : String) (preferred : Option String)
    (now : Int) : List Recipe → ProdEval → RNG → ProdEval × RNG
  | [], acc, rng => (acc, rng)
  | recipe :: rest, acc, rng =>
    let planetStep : Option (Option String) × RNG :=
      match preferred with
      | some p => (some (some p), rng)
      | none =>
        let cat := getMaterialProductionCategory ticker st.static_recipes st.static_buildings
        if st.all_planets_data.isEmpty then (none, rng)
        else
          let (bp, rng') := find_best_expansion_planet st.all_planets_data
            st.static_materials st.static_recipes cat (some recipe.BuildingTicker) now rng
          match bp with
          | some pd => (some (some pd.PlanetId), rng')
          | none => (none, rng')
    match planetStep with
    | (none, rng1) => evalRecipes recur st ticker preferred now rest acc rng1
    | (some planetFor, rng1) =>
      match evalInputs recur planetFor recipe.Inputs rng1 0 [] with
      | (none, rng2) => evalRecipes recur st ticker preferred now rest acc rng2
      | (some (totalInputCost, subs), rng2) =>
        match st.static_buildings.lookup recipe.BuildingTicker with
        | none => evalRecipes recur st ticker preferred now rest acc rng2
        | some _bdef =>
          let constr := constructionCostOf st recipe.BuildingTicker
          let effDur := effectiveDurationOf st recipe planetFor ticker now
          let outAmt := ((recipe.Outputs.find? (fun o => o.MaterialTicker == ticker)).map
            (fun o => o.Amount)).getD 0
          if outAmt > 0 && effDur > 0 then
            let cpu := totalInputCost / outAmt +
              constr / (outAmt * (MS_IN_DAY / effDur) * 365)
            if pyLtOptR cpu acc.bestCost then
              evalRecipes recur st ticker preferred now rest
                ⟨some cpu, some recipe, some recipe.BuildingTicker, subs, planetFor, constr⟩ rng2
            else
              evalRecipes recur st ticker preferred now rest { acc with lastConstr := constr } rng2
          else
            evalRecipes recur st ticker preferred now rest { acc with lastConstr := constr } rng2

/-- Recipes whose outputs include `ticker` (line 408), in catalog order. -/
def producingRecipes (st : SimulationState) (ticker : String) : List Recipe :=
  (st.static_recipes.map (·.2)).filter
    (fun r => r.Outputs.any (fun o => o.MaterialTicker == ticker))

/-- Append the chosen production building to the sub-building list
(lines 543-555 / 567-579): guarded by the truthiness of the ticker and
the catalog lookup; `estimated_cost_credits` is the construction cost
variable as last written by the recipe loop. -/
def appendBestBuilding (st : SimulationState) (pe : ProdEval) :
    List RecommendedBuilding :=
  match pe.bestTicker with
  | some bt =>
    if bt == "" then pe.bestSubs
    else
      match st.static_buildings.lookup bt with
      | some bdef =>
        pe.bestSubs ++ [⟨bt, bdef.name, 1, pe.lastConstr, pe.bestPlanet, none⟩]
      | none => pe.bestSubs
  | none => pe.bestSubs

/-- Body of the resolver below the depth guard (lines 381-580). -/
def calcCostBody (recur : String → Option String → RNG → CostResult × RNG)
    (ticker : String) (st : SimulationState) (preferred : Option String)
    (isFinal : Bool) (now : Int) (rng : RNG) : CostResult × RNG :=
  let buy := buyCostOf st.dynamic_market_data ticker
  let (pe, rng1) := evalRecipes recur st ticker preferred now
    (producingRecipes st ticker) ProdEval.init rng
  if isFinal then
    match pe.bestRecipe with
    | some _ =>
      (⟨pe.bestCost, "PRODUCE", appendBestBuilding st pe, pe.bestPlanet⟩, rng1)
    | none => (⟨none, "UNKNOWN", [], none⟩, rng1)
  else
    if pyLeOpt buy pe.bestCost then
      (⟨buy, "BUY", [], none⟩, rng1)
    else
      (⟨pe.bestCost, "PRODUCE", appendBestBuilding st pe, pe.bestPlanet⟩, rng1)

/-- Fueled resolver. The fuel-0 branch returns the depth-guard result,
which is what the Python function returns at every depth past the
bound; it is unreachable from `calcCost` whenever
`recursion_depth ≤ max_recursion_depth`. -/
def calcCostGo (st : SimulationState) (maxDepth : ℕ) (now : Int) :
    ℕ → String → ℕ → Option String → Bool → RNG → CostResult × RNG
  | 0, ticker, _depth, _preferred, _isFinal, rng =>
    (depthGuardResult st ticker, rng)
  | fuel + 1, ticker, depth, preferred, isFinal, rng =>
    if maxDepth < depth then (depthGuardResult st ticker, rng)
    else
      calcCostBody
        (fun t pl r => calcCostGo st maxDepth now fuel t (depth + 1) pl false r)
        ticker st preferred isFinal now rng

/-- `_calculate_material_cost_and_source(material_ticker, state, log,
recursion_depth, max_recursion_depth, preferred_planet_id,
is_final_material)` with the ambient inputs (`now`, the RNG stream)
made explicit. -/
def calcCost (ticker : String) (st : SimulationState)
    (recursion_depth max_recursion_depth : ℕ) (preferred : Option String)
    (isFinal : Bool) (now : Int) (rng : RNG) : CostResult × RNG :=
  calcCostGo st max_recursion_depth now (max_recursion_depth + 2 - recursion_depth)
    ticker recursion_depth preferred isFinal rng

/-! ## Allocation engine (`run_simulation`, lines 648-831) -/

/-- Area already used on a recommended planet (lines 683-687 / 772-776):
buildings whose definition is missing or whose area is `None`
contribute nothing. -/
def usedAreaOn (st : SimulationState) (p : RecommendedPlanet) : ℚ :=
  (p.recommended_buildings_on_planet.filterMap (fun b =>
    match st.static_buildings.lookup b.building_ticker with
    | some bdef =>
      match bdef.area with
      | some a => some (a * b.amount_to_build)
      | none => none
    | none => none)).sum

/-- Usable area on a new site (lines 688 / 778):
`500 + 2*250 - 25 = 975`. -/
def maxTotalAreaOnPlanet : ℚ :=
  BASE_MAX_AREA_FIRST_PERMIT + (MAX_ADDITIONAL_PERMITS * ADDITIONAL_AREA_PER_PERMIT) -
    SITE_BASE_AREA_COST

/-- Units of a building of the given footprint that still fit
(lines 689-691 / 780-782). -/
def fitsCount (st : SimulationState) (p : RecommendedPlanet) (areaPerUnit : ℚ) : ℤ :=
  if areaPerUnit > 0 then ⌊(maxTotalAreaOnPlanet - usedAreaOn st p) / areaPerUnit⌋
  else 0

/-- Step 1 of placement (lines 671-697): first already-recommended
planet (insertion order) that has a building of the same expertise
category and room for at least one more unit. -/
def step1Choose (st : SimulationState) (cat : Option String)
    (pm : List (String × RecommendedPlanet)) (areaPerUnit : ℚ) :
    Option (String × ℤ) :=
  if strOptTruthy cat then
    pm.findSome? (fun e =>
      if e.2.recommended_buildings_on_planet.any (fun b =>
          getBuildingExpertiseCategory b.building_ticker st.static_buildings == cat) then
        let f := fitsCount st e.2 areaPerUnit
        if f > 0 then some (e.1, f) else none
      else none)
  else none

/-- Suitability of a candidate planet for one building type in the
allocation scan (lines 707-752).  Unlike `planetSuitable`, the
RESOURCE_EXTRACTION case has no general fallback here. -/
def suitableForBuilding (st : SimulationState) (subTicker : String)
    (cat : Option String) (now : Int) (p : PlanetData) : Bool :=
  if cat == some "AGRICULTURE" then
    p.Fertility > 0
  else if cat == some "RESOURCE_EXTRACTION" then
    match extractedMaterialTicker st.static_recipes subTicker with
    | some et =>
      match materialIdOfTicker st.static_materials et with
      | some mid =>
        p.Resources.any (fun r =>
          r.MaterialId == mid && r.Factor > 0 &&
          ((subTicker == "RIG" && r.ResourceType == "LIQUID") ||
           (subTicker == "EXT" && r.ResourceType == "MINERAL") ||
           (subTicker == "COL" && r.ResourceType == "GASEOUS")))
      | none => false
    | none => false
  else if cat == some "METALURGY" || cat == some "REFINING" ||
          cat == some "CHEMICAL" || cat == some "FOOD_PROCESSING" ||
          cat == some "PROCESSED_GOOD" || cat == some "RECYCLING" then
    (match cat with
     | some c => hasActiveProgram p ("ADVERTISING_" ++ c) now
     | none => false) ||
    p.HasLocalMarket || p.HasChamberOfCommerce
  else
    true

/-- Fresh `RecommendedPlanet` entry for a planet first touched by the
allocation scan (lines 758-769). -/
def newPlanetEntry (pd : PlanetData) (uuid : String) : RecommendedPlanet :=
  ⟨pd.PlanetId, pd.PlanetName, some pd.Fertility, pd.Resources, 0, [], [],
    some (siteIdFromUuid uuid)⟩

/-- Step 2 of placement (lines 700-792): scan the shuffled planet list;
each suitable planet gets a map entry (with a fresh synthetic site id)
the first time it is seen — even if it then turns out to have no room —
and the scan stops at the first planet with room. -/
def scanCandidates (st : SimulationState) (subTicker : String)
    (cat : Option String) (areaPerUnit : ℚ) (now : Int) :
    List PlanetData → List (String × RecommendedPlanet) → List String →
    List (String × RecommendedPlanet) × List String × Option (String × ℤ)
  | [], pm, uuids => (pm, uuids, none)
  | cand :: rest, pm, uuids =>
    if suitableForBuilding st subTicker cat now cand then
      let pm1 :=
        if (pm.lookup cand.PlanetId).isSome then pm
        else pm ++ [(cand.PlanetId, newPlanetEntry cand (uuids.headD ""))]
      let uuids1 :=
        if (pm.lookup cand.PlanetId).isSome then uuids else uuids.drop 1
      match pm1.lookup cand.PlanetId with
      | some prec =>
        let f := fitsCount st prec areaPerUnit
        if f > 0 then (pm1, uuids1, some (cand.PlanetId, f))
        else scanCandidates st subTicker cat areaPerUnit now rest pm1 uuids1
      | none => (pm1, uuids1, none)
    else scanCandidates st subTicker cat areaPerUnit now rest pm uuids

/-- Record `units` placed units of `sub` on planet `pid` (lines
803-828): append the building, add its cost, accumulate workforce
demand from the static requirement table. -/
def placeOn (st : SimulationState) (sub : RecommendedBuilding) (units : ℕ)
    (pid : String) (prec : RecommendedPlanet) : RecommendedPlanet :=
  let newB : RecommendedBuilding :=
    ⟨sub.building_ticker, sub.building_name, units,
      sub.estimated_cost_credits * units, some pid, prec.site_id⟩
  let wfReqs := (st.static_building_workforces.lookup sub.building_ticker).getD []
  let wf' := wfReqs.foldl
    (fun acc req => updAssoc acc req.workforce_type_name (req.capacity_needed * units))
    prec.total_estimated_workforce_needed_on_planet
  { prec with
    recommended_buildings_on_planet := prec.recommended_buildings_on_planet ++ [newB],
    total_estimated_cost_credits_on_planet :=
      prec.total_estimated_cost_credits_on_planet + sub.estimated_cost_credits * units,
    total_estimated_workforce_needed_on_planet := wf' }

/-- The `while remaining_amount_to_place > 0` loop (lines 662-831).
Each productive iteration places at least one unit, so a fuel equal to
the initial remaining count suffices; the fuel-0 fallback mirrors the
(unreachable) `units_to_place == 0` re-loop. -/
def placeLoop (st : SimulationState) (sub : RecommendedBuilding)
    (areaPerUnit : ℚ) (now : Int) :
    ℕ → ℕ → List (String × RecommendedPlanet) → ℚ → RNG → List String →
    List (String × RecommendedPlanet) × ℚ × RNG × List String
  | 0, _, pm, overall, rng, uuids => (pm, overall, rng, uuids)
  | fuel + 1, remaining, pm, overall, rng, uuids =>
    if remaining == 0 then (pm, overall, rng, uuids)
    else
      let cat := getBuildingExpertiseCategory sub.building_ticker st.static_buildings
      let afterChoice :
          List (String × RecommendedPlanet) × ℚ × RNG × List String ×
            Option (String × ℤ) :=
        match step1Choose st cat pm areaPerUnit with
        | some (pid, f) => (pm, overall, rng, uuids, some (pid, f))
        | none =>
          let (shuffled, rng1) := randShuffle st.all_planets_data rng
          let (pm1, uuids1, choice) :=
            scanCandidates st sub.building_ticker cat areaPerUnit now shuffled pm uuids
          (pm1, overall, rng1, uuids1, choice)
      match afterChoice with
      | (pm1, overall1, rng1, uuids1, none) => (pm1, overall1, rng1, uuids1)
      | (pm1, overall1, rng1, uuids1, some (pid, f)) =>
        let units := min remaining f.toNat
        if units == 0 then
          placeLoop st sub areaPerUnit now fuel remaining pm1 overall1 rng1 uuids1
        else
          match pm1.lookup pid with
          | some prec =>
            let prec' := placeOn st sub units pid prec
            placeLoop st sub areaPerUnit now fuel (remaining - units)
              (assocUpdate pm1 pid prec')
              (overall1 + sub.estimated_cost_credits * units) rng1 uuids1
          | none => (pm1, overall1, rng1, uuids1)

/-- Loop over the distinct chain-building types (lines 654-831).  The
unguarded `initial_state.static_buildings.get(t).area` of line 655
raises `AttributeError` when the ticker is missing from the catalog;
that is the single fallible point, modelled with `Except`. -/
def allocateChain (st : SimulationState) (numCS : ℕ) (now : Int) :
    List RecommendedBuilding → List (String × RecommendedPlanet) → ℚ → RNG →
    List String →
    Except String (List (String × RecommendedPlanet) × ℚ × RNG × List String)
  | [], pm, overall, rng, uuids => .ok (pm, overall, rng, uuids)
  | sub :: rest, pm, overall, rng, uuids =>
    match st.static_buildings.lookup sub.building_ticker with
    | none => .error "AttributeError: NoneType object has no attribute area"
    | some bdef =>
      let areaPerUnit := bdef.area.getD 0
      let remaining := sub.amount_to_build * numCS
      let (pm1, overall1, rng1, uuids1) :=
        placeLoop st sub areaPerUnit now remaining remaining pm overall rng uuids
      allocateChain st numCS now rest pm1 overall1 rng1 uuids1

/-- `max(1, int(x/y + 0.99))` of line 649-650: chain-sets needed to
close the gap (the Python `int()` truncates, which on the positive
values reaching it is the floor). -/
def numChainSets (gap rate : ℚ) : ℕ :=
  max 1 (Int.toNat ⌊gap / rate + 99 / 100⌋)

/-- Per-building throughput of the top-level recipe (lines 630-645). -/
def topLevelRate (st : SimulationState) (ticker : String) : ℚ :=
  match find_best_recipe_and_building st.static_recipes st.static_buildings
      ticker none none with
  | some (recipe, _bt) =>
    match recipe.Outputs.find? (fun o => o.MaterialTicker == ticker) with
    | some om => if recipe.DurationMs > 0 then om.Amount / recipe.DurationMs * MS_IN_DAY else 0
    | none => 0
  | none => 0

/-- HQ context planet passed to the top-level resolution (line 617). -/
def topLevelPreferred (st : SimulationState) : Option String :=
  match st.company.hq with
  | some hq => hq.PlanetId
  | none => none

/-- The gap-closing stage of `run_simulation` (lines 612-854 inside
`if production_gap > 0`): resolve the acquisition strategy, and on
PRODUCE scale and place the chain buildings; on BUY add the purchase
cost (the top-level resolver, called with `is_final_material=True` at
depth 0, never actually returns BUY, and its BUY cost is finite on the
depth-guard path, so `getD 0` is a dead default). -/
def coreStage (st : SimulationState) (ticker : String) (gap : ℚ) (now : Int)
    (rng : RNG) (uuids : List String) :
    Except String (List (String × RecommendedPlanet) × ℚ × RNG × List String) :=
  let (res, rng1) := calcCost ticker st 0 3 (topLevelPreferred st) true now rng
  if res.source == "PRODUCE" then
    let rate := topLevelRate st ticker
    if rate > 0 then
      allocateChain st (numChainSets gap rate) now res.subBuildings [] 0 rng1 uuids
    else .ok ([], 0, rng1, uuids)
  else if res.source == "BUY" then
    .ok ([], res.cost.getD 0 * gap, rng1, uuids)
  else
    .ok ([], 0, rng1, uuids)

/-! ## Workforce housing planner (lines 856-958) -/

/-- Cost of one housing building from its bill of materials at market
prices (lines 884-897 and again 926-939); each item is only priced when
the market list is non-empty. -/
def housingCostOf (st : SimulationState) (hbTicker : String) : ℚ :=
  ((st.static_building_costs.lookup hbTicker).getD []).foldl
    (fun acc ci =>
      if st.dynamic_market_data.isEmpty then acc
      else acc + ci.Amount * itemPriceFor st.dynamic_market_data ci.MaterialTicker) 0

/-- Candidate housing buildings for one workforce type (lines 870-904):
`(definition, cost per capacity unit, area per capacity unit,
capacity)`. -/
def housingCandidates (st : SimulationState) (wfType : String) :
    List (Building × ℚ × ℚ × ℚ) :=
  HOUSING_BUILDING.filterMap (fun e =>
    match st.static_buildings.lookup e.1 with
    | none => none
    | some bdef =>
      let capacity := (e.2.foldl (fun acc c =>
        if c.WorkforceTypeTicker == wfType && c.capacity > 0 then acc + c.capacity
        else acc) 0)
      if capacity > 0 then
        let cost := housingCostOf st e.1
        let area := bdef.area.getD 0
        some (bdef, cost / capacity, area / capacity, capacity)
      else none)

/-- Housing for one workforce demand entry on one planet
(lines 861-958), returning the updated planet record and overall cost. -/
def housingForType (st : SimulationState) (goal : Option String) (pid : String)
    (wfType : String) (amount : ℚ) (prec : RecommendedPlanet) (overall : ℚ) :
    RecommendedPlanet × ℚ :=
  if amount ≤ 0 then (prec, overall)
  else
    let cands := housingCandidates st wfType
    match cands with
    | [] => (prec, overall)
    | _ :: _ =>
      let key : Building × ℚ × ℚ × ℚ → ℚ :=
        if goal == some "less area" then (fun c => c.2.2.1) else (fun c => c.2.1)
      match stableSortByKey key cands with
      | [] => (prec, overall)
      | best :: _ =>
        let bdef := best.1
        let capacity := best.2.2.2
        if capacity ≤ 0 then (prec, overall)
        else
          let num := max 1 (Int.toNat ⌊amount / capacity + 99 / 100⌋)
          let cost := housingCostOf st bdef.ticker
          let newB : RecommendedBuilding :=
            ⟨bdef.ticker, bdef.name, num, cost, some pid, prec.site_id⟩
          ({ prec with
              total_estimated_cost_credits_on_planet :=
                prec.total_estimated_cost_credits_on_planet + cost * num,
              recommended_buildings_on_planet :=
                prec.recommended_buildings_on_planet ++ [newB] },
            overall + cost * num)

/-- Housing pass over every recommended planet (lines 857-958). -/
def housingStage (st : SimulationState) (goal : Option String)
    (pm : List (String × RecommendedPlanet)) (overall : ℚ) :
    List (String × RecommendedPlanet) × ℚ :=
  pm.foldl (fun acc e =>
    let (prec', ov') := e.2.total_estimated_workforce_needed_on_planet.foldl
      (fun st2 wfe => housingForType st goal e.1 wfe.1 wfe.2 st2.1 st2.2)
      (e.2, acc.2)
    (acc.1 ++ [(e.1, prec')], ov'))
    ([], overall)

/-! ## Final area and permit check (lines 961-999) -/

/-- Total site area a recommended planet needs, including the 25-unit
site base area (lines 966-972). -/
def siteAreaNeeded (st : SimulationState) (p : RecommendedPlanet) : ℚ :=
  SITE_BASE_AREA_COST +
    (p.recommended_buildings_on_planet.filterMap (fun b =>
      match st.static_buildings.lookup b.building_ticker with
      | some bdef =>
        match bdef.area with
        | some a => some (a * b.amount_to_build)
        | none => none
      | none => none)).sum

/-- Additional permits bought for a site of the given total area
(lines 974-994): `min(2, max(0, int(deficit/250 + 0.99)))` whenever the
area exceeds the 500 base, in both the over-capacity and the normal
branch. -/
def permitsToBuy (area : ℚ) : ℕ :=
  let maxPossible := BASE_MAX_AREA_FIRST_PERMIT +
    (MAX_ADDITIONAL_PERMITS * ADDITIONAL_AREA_PER_PERMIT)
  if area > maxPossible then
    Int.toNat (min 2 (max 0 ⌊(area - BASE_MAX_AREA_FIRST_PERMIT) /
      ADDITIONAL_AREA_PER_PERMIT + 99 / 100⌋))
  else if area - BASE_MAX_AREA_FIRST_PERMIT > 0 then
    Int.toNat (min 2 (max 0 ⌊(area - BASE_MAX_AREA_FIRST_PERMIT) /
      ADDITIONAL_AREA_PER_PERMIT + 99 / 100⌋))
  else 0

/-- Permit pass for one planet (lines 996-998). -/
def applyPermits (st : SimulationState) (p : RecommendedPlanet) : RecommendedPlanet :=
  { p with
    total_estimated_cost_credits_on_planet :=
      p.total_estimated_cost_credits_on_planet +
        (permitsToBuy (siteAreaNeeded st p) : ℚ) * PERMIT_COST }

/-- Permit pass over every recommended planet, also accumulating the
overall cost (lines 965-999). -/
def permitStage (st : SimulationState)
    (pm : List (String × RecommendedPlanet)) (overall : ℚ) :
    List (String × RecommendedPlanet) × ℚ :=
  (pm.map (fun e => (e.1, applyPermits st e.2)),
   overall + (pm.map (fun e =>
     (permitsToBuy (siteAreaNeeded st e.2) : ℚ) * PERMIT_COST)).sum)

/-! ## `run_simulation` (lines 583-1017) -/

def run_simulation (st : SimulationState) (ticker : String) (target : ℚ)
    (goal : Option String) (now : Int) (rng : RNG) (uuids : List String) :
    Except String Recommendation :=
  let current := calculate_current_production st ticker none
  let gap := target - current
  if gap > 0 then
    (coreStage st ticker gap now rng uuids).map (fun out =>
      let (pm2, cost2) := housingStage st goal out.1 out.2.1
      let (pm3, cost3) := permitStage st pm2 cost2
      { desired_material_ticker := ticker,
        target_production_rate_units_per_day := target,
        current_production_units_per_day := current,
        production_gap_units_per_day := gap,
        recommended_planets := pm3.map (·.2),
        total_estimated_cost_credits := cost3 })
  else
    .ok { desired_material_ticker := ticker,
          target_production_rate_units_per_day := target,
          current_production_units_per_day := current,
          production_gap_units_per_day := gap,
          recommended_planets := [],
          total_estimated_cost_credits := 0 }

/-! ## Concrete states used by witnesses and counterexamples -/

/-- A bare planet with no COGC data, market or resources. -/
def planetP1 : PlanetData := ⟨"P1", "Alpha", 0, [], [], none, false, false⟩

/-- A one-recipe catalog: building `FP` of the given footprint runs a
recipe producing `outAmt` units of `RAT` every `dur` ms with no inputs;
the company HQ sits on the only planet `P1`. -/
def mkState (area dur outAmt : ℚ) : SimulationState :=
  { company := ⟨some ⟨some "P1"⟩, [], []⟩,
    static_materials := [],
    static_buildings := [("FP", ⟨"FP", "Food Processor", some area, none⟩)],
    static_recipes := [("FP:=>RAT", ⟨"FP:=>RAT", "FP", "RAT-recipe", dur, [], [⟨"RAT", outAmt⟩]⟩)],
    static_building_costs := [],
    static_building_workforces := [],
    dynamic_market_data := [],
    all_planets_data := [planetP1] }

/-- 96 units/day per building (4 per hour), footprint 50. -/
def stateFP : SimulationState := mkState 50 3600000 4

/-- 96 units/day per building, footprint 726: one unit yields a site
area of 25 + 726 = 751. -/
def state726 : SimulationState := mkState 726 3600000 4

/-- 100 units/day per building, footprint 50. -/
def stateRate100 : SimulationState := mkState 50 86400000 100

/-- A completely empty snapshot. -/
def stateEmpty : SimulationState := ⟨⟨none, [], []⟩, [], [], [], [], [], [], []⟩

/-- A self-referential recipe graph: producing `SELF` requires `SELF`. -/
def stateCyclic : SimulationState :=
  { company := ⟨some ⟨some "P1"⟩, [], []⟩,
    static_materials := [],
    static_buildings := [("B", ⟨"B", "Loop Building", some 10, none⟩)],
    static_recipes := [("B:SELF=>SELF", ⟨"B:SELF=>SELF", "B", "SELF-loop", 1000,
      [⟨"SELF", 1⟩], [⟨"SELF", 1⟩]⟩)],
    static_building_costs := [],
    static_building_workforces := [],
    dynamic_market_data := [],
    all_planets_data := [planetP1] }

/-- `RAT` can be bought at 5 but produced only at cost 10 (two units of
`H2O` at ask 20 per 4 output units): buying is strictly cheaper. -/
def stateBuyCheaper : SimulationState :=
  { company := ⟨some ⟨some "P1"⟩, [], []⟩,
    static_materials := [],
    static_buildings := [("FP", ⟨"FP", "Food Processor", some 50, none⟩)],
    static_recipes := [("FP:2xH2O=>4xRAT", ⟨"FP:2xH2O=>4xRAT", "FP", "RAT-recipe", 3600000,
      [⟨"H2O", 2⟩], [⟨"RAT", 4⟩]⟩)],
    static_building_costs := [],
    static_building_workforces := [],
    dynamic_market_data := [⟨"RAT", some 5, some 5, none⟩, ⟨"H2O", some 20, some 20, none⟩],
    all_planets_data := [planetP1] }

/-- The recipe-loop evaluation exactly as the resolver performs it one
level below the depth guard (used to state decision-policy theorems
about `calcCost` without unfolding the loop). -/
def resolverEval (ticker : String) (st : SimulationState) (depth maxD : ℕ)
    (preferred : Option String) (now : Int) (rng : RNG) : ProdEval × RNG :=
  evalRecipes (fun t pl r => calcCost t st (depth + 1) maxD pl false now r)
    st ticker preferred now (producingRecipes st ticker) ProdEval.init rng

/-- The planet record `run_simulation state726 "RAT" 10` produces: one
726-area building on a 751-area site, for which the code buys a single
permit (50000 credits). -/
def planet726 : RecommendedPlanet :=
  ⟨"P1", "Alpha", some 0, [], 50000, [],
    [⟨"FP", "Food Processor", 1, 0, some "P1", some "NEW_SITE_AAAAAAAA"⟩],
    some "NEW_SITE_AAAAAAAA"⟩

/-- Full output of `run_simulation state726 "RAT" 10`. -/
def rec726 : Recommendation := ⟨"RAT", 10, 0, 10, [planet726], 50000⟩

instance : DecidableEq (Except String Recommendation) := fun a b =>
  match a, b with
  | .ok x, .ok y =>
    if h : x = y then .isTrue (by rw [h]) else .isFalse (by simp [h])
  | .error x, .error y =>
    if h : x = y then .isTrue (by rw [h]) else .isFalse (by simp [h])
  | .ok _, .error _ => .isFalse (by simp)
  | .error _, .ok _ => .isFalse (by simp)

/-! ## Helper lemmas about the resolver -/

/-- Past the depth bound the resolver returns the depth-guard result
without recursing. -/
theorem calcCost_guard (ticker : String) (st : SimulationState)
    (depth maxD : ℕ) (pref : Option String) (fin : Bool) (now : Int) (rng : RNG)
    (h : maxD < depth) :
    calcCost ticker st depth maxD pref fin now rng = (depthGuardResult st ticker, rng) := by
  unfold calcCost
  cases hf : maxD + 2 - depth with
  | zero => simp [calcCostGo]
  | succ n => simp [calcCostGo, h]

/-- Within the depth bound, one unfolding of the resolver: the body at
this depth, recursing through `calcCost` at depth + 1. -/
theorem calcCost_unfold (ticker : String) (st : SimulationState)
    (depth maxD : ℕ) (pref : Option String) (fin : Bool) (now : Int) (rng : RNG)
    (h : depth ≤ maxD) :
    calcCost ticker st depth maxD pref fin now rng =
      calcCostBody (fun t pl r => calcCost t st (depth + 1) maxD pl false now r)
        ticker st pref fin now rng := by
  show calcCostGo st maxD now (maxD + 2 - depth) ticker depth pref fin rng = _
  have h2 : maxD + 2 - depth = (maxD + 2 - (depth + 1)) + 1 := by omega
  rw [h2]
  show (if maxD < depth then _ else _) = _
  rw [if_neg (by omega)]
  rfl

/-! ## C3 -/

/-- **C3**: every resolver call invoked with `recursion_depth` greater
than `max_recursion_depth` returns immediately — the material's market
`PriceAverage` as a BUY if a quote exists, else `(∞, UNKNOWN)` — with
no further recursion (the returned stream equals the input stream), so
the resolver terminates on every input, cyclic recipe graphs included
(`calcCost` is a total function). -/
theorem claim3_depth_guard (ticker : String) (st : SimulationState)
    (recursion_depth max_recursion_depth : ℕ) (preferred : Option String)
    (isFinal : Bool) (now : Int) (rng : RNG)
    (h : max_recursion_depth < recursion_depth) :
    calcCost ticker st recursion_depth max_recursion_depth preferred isFinal now rng =
      (match (st.dynamic_market_data.find? (fun md => md.MaterialTicker == ticker)).bind
          (fun md => md.PriceAverage) with
        | some p => (⟨some p, "BUY", [], none⟩ : CostResult)
        | none => (⟨none, "UNKNOWN", [], none⟩ : CostResult), rng) := by
  rw [calcCost_guard ticker st recursion_depth max_recursion_depth preferred isFinal now rng h]
  rfl

/-- Witness for C3, on a state whose only recipe needs its own output:
at depth 4 with bound 3 the resolver answers immediately. -/
theorem claim3_witness :
    3 < 4 ∧
    calcCost "SELF" stateCyclic 4 3 none false 0 [] =
      ((⟨none, "UNKNOWN", [], none⟩ : CostResult), []) := by
  refine ⟨by norm_num, ?_⟩
  rw [claim3_depth_guard "SELF" stateCyclic 4 3 none false 0 [] (by norm_num)]
  decide

/-! ## C4 -/

/-- **C4**: whenever the target rate is at most the current production
rate, `run_simulation` returns a recommendation whose gap is
`target − current` (hence ≤ 0), with no recommended planets and a zero
total cost. -/
theorem claim4_no_gap (st : SimulationState) (ticker : String) (target : ℚ)
    (goal : Option String) (now : Int) (rng : RNG) (uuids : List String)
    (h : target ≤ calculate_current_production st ticker none) :
    run_simulation st ticker target goal now rng uuids =
      .ok ⟨ticker, target, calculate_current_production st ticker none,
           target - calculate_current_production st ticker none, [], 0⟩ ∧
    target - calculate_current_production st ticker none ≤ 0 := by
  have hle : target - calculate_current_production st ticker none ≤ 0 := sub_nonpos.mpr h
  refine ⟨?_, hle⟩
  unfold run_simulation
  rw [if_neg (not_lt.mpr hle)]

/-- Witness for C4 at a concrete state with target 0 and current 0. -/
theorem claim4_witness :
    (0 : ℚ) ≤ calculate_current_production stateFP "RAT" none ∧
    run_simulation stateFP "RAT" 0 none 0 [] [] =
      .ok ⟨"RAT", 0, calculate_current_production stateFP "RAT" none,
           0 - calculate_current_production stateFP "RAT" none, [], 0⟩ :=
  ⟨by decide, (claim4_no_gap stateFP "RAT" 0 none 0 [] [] (by decide)).1⟩

/-! ## C2 -/

/-- Counterexample to **C2** as stated: for a material with no recipe
and no market quote, a non-final resolver call within the depth bound
returns source `"BUY"` (because `inf <= inf` is `True` at line 561),
not `"UNKNOWN"`. -/
theorem claim2_counterexample :
    producingRecipes stateEmpty "X" = [] ∧
    stateEmpty.dynamic_market_data = [] ∧
    (calcCost "X" stateEmpty 0 3 none false 0 []).1 =
      (⟨none, "BUY", [], none⟩ : CostResult) ∧
    "BUY" ≠ "UNKNOWN" := by decide

/-- **C2 (amended)**: with no producing recipe and no market entry the
resolver always returns cost ∞, an empty building list and no planet
id; the source is `UNKNOWN` when the call is past the depth bound or
`is_final_material` is true, but `"BUY"` (at cost ∞) when
`is_final_material` is false within the depth bound, since the
comparison `inf <= inf` favours BUY. -/
theorem claim2_amended (ticker : String) (st : SimulationState)
    (depth maxD : ℕ) (pref : Option String) (fin : Bool) (now : Int) (rng : RNG)
    (hrec : producingRecipes st ticker = [])
    (hmkt : st.dynamic_market_data.find? (fun md => md.MaterialTicker == ticker) = none) :
    calcCost ticker st depth maxD pref fin now rng =
      (⟨none, if maxD < depth ∨ fin = true then "UNKNOWN" else "BUY", [], none⟩, rng) := by
  by_cases hd : maxD < depth
  · rw [calcCost_guard ticker st depth maxD pref fin now rng hd]
    unfold depthGuardResult
    rw [hmkt]
    simp [hd]
  · rw [calcCost_unfold ticker st depth maxD pref fin now rng (by omega)]
    unfold calcCostBody
    rw [hrec]
    unfold buyCostOf
    rw [hmkt]
    simp only [evalRecipes]
    cases fin
    · simp [hd, pyLeOpt, ProdEval.init]
    · simp [hd, ProdEval.init]

/-- Witness for C2 (amended): the final-material case on the empty
state yields `(∞, UNKNOWN, [], None)`. -/
theorem claim2_witness :
    producingRecipes stateEmpty "X" = [] ∧
    calcCost "X" stateEmpty 0 3 none true 0 [] =
      ((⟨none, "UNKNOWN", [], none⟩ : CostResult), []) := by
  refine ⟨by decide, ?_⟩
  have h := claim2_amended "X" stateEmpty 0 3 none true 0 [] (by decide) (by decide)
  simpa using h

/-! ## C5 -/

/-- Counterexample to **C5** as stated: two runs on the same snapshot
with the same RNG stream but different `uuid.uuid4()` outcomes (which
the seeded `random` module does not control) return different
recommendations — the synthetic site ids differ. -/
theorem claim5_counterexample :
    (run_simulation stateFP "RAT" 10 none 0 [0, 0, 0, 0] ["aaaaaaaa"]).toOption.isSome ∧
    (run_simulation stateFP "RAT" 10 none 0 [0, 0, 0, 0] ["bbbbbbbb"]).toOption.isSome ∧
    (run_simulation stateFP "RAT" 10 none 0 [0, 0, 0, 0] ["aaaaaaaa"]).toOption ≠
      (run_simulation stateFP "RAT" 10 none 0 [0, 0, 0, 0] ["bbbbbbbb"]).toOption := by
  decide

/-- **C5 (amended)**: two runs are identical when *all* ambient inputs
coincide — the seeded RNG stream, the `uuid.uuid4()` draws, and the
wall clock; the RNG seed alone is not enough because synthetic site ids
are taken from `uuid.uuid4()`, which is independent of the seeded
`random` module. -/
theorem claim5_amended (st : SimulationState) (ticker : String) (target : ℚ)
    (goal : Option String) (now1 now2 : Int) (rng1 rng2 : RNG)
    (uuids1 uuids2 : List String)
    (hr : rng1 = rng2) (hu : uuids1 = uuids2) (hn : now1 = now2) :
    run_simulation st ticker target goal now1 rng1 uuids1 =
      run_simulation st ticker target goal now2 rng2 uuids2 := by
  rw [hr, hu, hn]

/-- Witness for C5 (amended) at a concrete snapshot. -/
theorem claim5_witness :
    ([0, 0, 0, 0] : RNG) = [0, 0, 0, 0] ∧
    run_simulation stateFP "RAT" 10 none 0 [0, 0, 0, 0] ["aaaaaaaa"] =
      run_simulation stateFP "RAT" 10 none 0 [0, 0, 0, 0] ["aaaaaaaa"] :=
  ⟨rfl, claim5_amended stateFP "RAT" 10 none 0 0 [0, 0, 0, 0] [0, 0, 0, 0]
    ["aaaaaaaa"] ["aaaaaaaa"] rfl rfl rfl⟩

/-! ## C1 -/

/-- In the recipe loop, a best cost is recorded exactly when a best
recipe is recorded (both are written together at line 529-534). -/
theorem evalRecipes_cost_iff_recipe
    (recur : String → Option String → RNG → CostResult × RNG)
    (st : SimulationState) (ticker : String) (preferred : Option String) (now : Int) :
    ∀ (recipes : List Recipe) (acc : ProdEval) (rng : RNG),
      (acc.bestCost.isSome ↔ acc.bestRecipe.isSome) →
      ((evalRecipes recur st ticker preferred now recipes acc rng).1.bestCost.isSome ↔
        (evalRecipes recur st ticker preferred now recipes acc rng).1.bestRecipe.isSome) := by
  intro recipes
  induction recipes with
  | nil => intro acc rng h; simpa [evalRecipes] using h
  | cons recipe rest ih =>
    intro acc rng h
    simp only [evalRecipes]
    split
    · exact ih _ _ h
    · split
      · exact ih _ _ h
      · split
        · exact ih _ _ h
        · split
          · split
            · exact ih _ _ (by simp)
            · exact ih _ _ h
          · exact ih _ _ h

/-- **C1**: the decision policy of the cost resolver.  Within the depth
bound: when `is_final_material` is true and the recipe loop found a
viable recipe with a finite production cost, the source is PRODUCE at
that cost regardless of the market buy price; when `is_final_material`
is false, the source is BUY (at the market buy price) exactly when the
buy cost is ≤ the best production cost under the inf-aware comparison
(ties favour BUY), and otherwise PRODUCE at the cheaper production
cost. -/
theorem claim1_decision_policy (ticker : String) (st : SimulationState)
    (depth maxD : ℕ) (pref : Option String) (fin : Bool) (now : Int) (rng : RNG)
    (h : depth ≤ maxD) (pe : ProdEval) (rng1 : RNG)
    (hres : resolverEval ticker st depth maxD pref now rng = (pe, rng1)) :
    (fin = true → pe.bestCost.isSome →
      (calcCost ticker st depth maxD pref fin now rng).1.source = "PRODUCE" ∧
      (calcCost ticker st depth maxD pref fin now rng).1.cost = pe.bestCost) ∧
    (fin = false →
      (((calcCost ticker st depth maxD pref fin now rng).1.source = "BUY" ∧
        (calcCost ticker st depth maxD pref fin now rng).1.cost =
          buyCostOf st.dynamic_market_data ticker) ↔
        pyLeOpt (buyCostOf st.dynamic_market_data ticker) pe.bestCost = true) ∧
      (pyLeOpt (buyCostOf st.dynamic_market_data ticker) pe.bestCost = false →
        (calcCost ticker st depth maxD pref fin now rng).1.source = "PRODUCE" ∧
        (calcCost ticker st depth maxD pref fin now rng).1.cost = pe.bestCost)) := by
  have hiff : pe.bestCost.isSome ↔ pe.bestRecipe.isSome := by
    have h0 := evalRecipes_cost_iff_recipe
      (fun t pl r => calcCost t st (depth + 1) maxD pl false now r)
      st ticker pref now (producingRecipes st ticker) ProdEval.init rng
      (by simp [ProdEval.init])
    unfold resolverEval at hres
    rw [hres] at h0
    exact h0
  rw [calcCost_unfold ticker st depth maxD pref fin now rng h]
  unfold calcCostBody
  unfold resolverEval at hres
  rw [hres]
  cases fin
  · simp only [Bool.false_eq_true, false_implies, true_and, if_false, forall_const]
    rcases hb : pyLeOpt (buyCostOf st.dynamic_market_data ticker) pe.bestCost
    · simp [hb]
    · simp [hb]
  · simp only [if_true, forall_const, Bool.true_eq_false, false_implies, and_true, true_implies]
    intro hsome
    rcases hrec : pe.bestRecipe with _ | recipe
    · exfalso
      have h2 := hiff.mp hsome
      rw [hrec] at h2
      simp at h2
    · simp [hrec]

/-- The recipe-loop outcome on `stateBuyCheaper`: a viable PRODUCE path
at 10/unit (the market sells at 5). -/
def peBuyCheaper : ProdEval :=
  ⟨some 10,
    some ⟨"FP:2xH2O=>4xRAT", "FP", "RAT-recipe", 3600000, [⟨"H2O", 2⟩], [⟨"RAT", 4⟩]⟩,
    some "FP", [], some "P1", 0⟩

/-- Witness for C1: with a strictly cheaper market price (5 < 10) and a
viable recipe, a final-material call still answers PRODUCE at 10. -/
theorem claim1_witness :
    buyCostOf stateBuyCheaper.dynamic_market_data "RAT" = some 5 ∧
    peBuyCheaper.bestCost = some 10 ∧
    (calcCost "RAT" stateBuyCheaper 0 3 (some "P1") true 0 []).1.source = "PRODUCE" ∧
    (calcCost "RAT" stateBuyCheaper 0 3 (some "P1") true 0 []).1.cost =
      peBuyCheaper.bestCost :=
  ⟨by decide, by decide,
    (claim1_decision_policy "RAT" stateBuyCheaper 0 3 (some "P1") true 0 []
      (by norm_num) peBuyCheaper [] (by decide)).1 rfl (by decide)⟩

/-! ## C10 -/

/-- Anything is ≤ infinity under the Python comparison. -/
theorem pyLeOpt_none (a : Option ℚ) : pyLeOpt a none = true := by
  cases a <;> rfl

/-- The input loop consumes no RNG draws when the per-input resolver
consumes none. -/
theorem evalInputs_rng_pres (recur : String → Option String → RNG → CostResult × RNG)
    (planetFor : Option String)
    (hrec : ∀ t r, (recur t planetFor r).2 = r) :
    ∀ (inputs : List RecipeInput) (rng : RNG) (c : ℚ) (s : List RecommendedBuilding),
      (evalInputs recur planetFor inputs rng c s).2 = rng := by
  intro inputs
  induction inputs with
  | nil => intro rng c s; rfl
  | cons i rest ih =>
    intro rng c s
    simp only [evalInputs]
    rcases hc : recur i.MaterialTicker planetFor rng with ⟨res, rng1⟩
    have h1 : rng1 = rng := by
      have h2 := hrec i.MaterialTicker rng
      rw [hc] at h2
      exact h2
    subst h1
    dsimp only
    rcases hcost : res.cost with _ | c'
    · simp [hcost]
    · simp [hcost, ih]

/-- With a preferred planet the recipe loop never consults the planet
selector, hence consumes no RNG draws (beyond what the per-input
resolver consumes, which is also nothing here). -/
theorem evalRecipes_rng_pres (recur : String → Option String → RNG → CostResult × RNG)
    (st : SimulationState) (ticker : String) (p : String) (now : Int)
    (hrec : ∀ t r, (recur t (some p) r).2 = r) :
    ∀ (recipes : List Recipe) (acc : ProdEval) (rng : RNG),
      (evalRecipes recur st ticker (some p) now recipes acc rng).2 = rng := by
  intro recipes
  induction recipes with
  | nil => intro acc rng; rfl
  | cons recipe rest ih =>
    intro acc rng
    simp only [evalRecipes]
    rcases hin : evalInputs recur (some p) recipe.Inputs rng 0 [] with ⟨q, rng2⟩
    have h2 : rng2 = rng := by
      have h3 := evalInputs_rng_pres recur (some p) hrec recipe.Inputs rng 0 []
      rw [hin] at h3
      exact h3
    subst h2
    rcases q with _ | ⟨tic, subs⟩
    · exact ih _ _
    · rcases hlk : st.static_buildings.lookup recipe.BuildingTicker with _ | bdef
      · simp only [hlk]; exact ih _ _
      · simp only [hlk]
        split
        · split
          · exact ih _ _
          · exact ih _ _
        · exact ih _ _

/-- The fueled resolver leaves the RNG stream untouched whenever a
preferred planet is supplied: the planet selector (the lone RNG
consumer) is never consulted, at any recursion level. -/
theorem calcCostGo_rng_pres (st : SimulationState) (maxD : ℕ) (now : Int) :
    ∀ (fuel : ℕ) (ticker : String) (depth : ℕ) (p : String) (fin : Bool) (rng : RNG),
      (calcCostGo st maxD now fuel ticker depth (some p) fin rng).2 = rng := by
  intro fuel
  induction fuel with
  | zero => intro ticker depth p fin rng; rfl
  | succ n ih =>
    intro ticker depth p fin rng
    simp only [calcCostGo]
    split
    · rfl
    · unfold calcCostBody
      rcases hE : evalRecipes
          (fun t pl r => calcCostGo st maxD now n t (depth + 1) pl false r)
          st ticker (some p) now (producingRecipes st ticker) ProdEval.init rng
        with ⟨pe, rng1⟩
      have h1 : rng1 = rng := by
        have h2 := evalRecipes_rng_pres
          (fun t pl r => calcCostGo st maxD now n t (depth + 1) pl false r)
          st ticker p now (fun t r => ih t (depth + 1) p false r)
          (producingRecipes st ticker) ProdEval.init rng
        rw [hE] at h2
        exact h2
      subst h1
      dsimp only
      cases fin
      · rw [if_neg (by simp : ¬(false = true))]
        split <;> rfl
      · rw [if_pos rfl]
        split <;> rfl

/-- In the recipe loop with a preferred planet, a recorded best recipe
always carries that planet. -/
theorem evalRecipes_planet_inv (recur : String → Option String → RNG → CostResult × RNG)
    (st : SimulationState) (ticker : String) (p : String) (now : Int) :
    ∀ (recipes : List Recipe) (acc : ProdEval) (rng : RNG),
      (acc.bestRecipe.isSome → acc.bestPlanet = some p) →
      ((evalRecipes recur st ticker (some p) now recipes acc rng).1.bestRecipe.isSome →
        (evalRecipes recur st ticker (some p) now recipes acc rng).1.bestPlanet = some p) := by
  intro recipes
  induction recipes with
  | nil => intro acc rng h; simpa [evalRecipes] using h
  | cons recipe rest ih =>
    intro acc rng h
    simp only [evalRecipes]
    split
    · exact ih _ _ h
    · split
      · exact ih _ _ h
      · split
        · split
          · exact ih _ _ (by intro _; rfl)
          · exact ih _ _ h
        · exact ih _ _ h

/-- Below the depth guard, a PRODUCE answer under a preferred planet
names exactly that planet as the production planet. -/
theorem calcCostBody_planet_inv
    (recur : String → Option String → RNG → CostResult × RNG)
    (ticker : String) (st : SimulationState) (p : String) (fin : Bool)
    (now : Int) (rng : RNG) :
    (calcCostBody recur ticker st (some p) fin now rng).1.source = "PRODUCE" →
    (calcCostBody recur ticker st (some p) fin now rng).1.planetId = some p := by
  unfold calcCostBody
  rcases hE : evalRecipes recur st ticker (some p) now
      (producingRecipes st ticker) ProdEval.init rng with ⟨pe, rng1⟩
  have hpl : pe.bestRecipe.isSome → pe.bestPlanet = some p := by
    have h2 := evalRecipes_planet_inv recur st ticker p now
      (producingRecipes st ticker) ProdEval.init rng (by intro h3; simp [ProdEval.init] at h3)
    rw [hE] at h2
    exact h2
  have hiff : pe.bestCost.isSome ↔ pe.bestRecipe.isSome := by
    have h2 := evalRecipes_cost_iff_recipe recur st ticker (some p) now
      (producingRecipes st ticker) ProdEval.init rng (by simp [ProdEval.init])
    rw [hE] at h2
    exact h2
  dsimp only
  cases fin
  · simp only [if_false, Bool.false_eq_true]
    rcases hb : pyLeOpt (buyCostOf st.dynamic_market_data ticker) pe.bestCost
    · simp only [hb, if_false, Bool.false_eq_true]
      intro _
      apply hpl
      apply hiff.mp
      rcases hcost : pe.bestCost with _ | c
      · rw [hcost, pyLeOpt_none] at hb
        exact absurd hb (by simp)
      · rfl
    · simp [hb]
  · simp only [if_true]
    rcases hrec : pe.bestRecipe with _ | recipe
    · simp [hrec]
    · simp only [hrec]
      intro _
      exact hpl (by rw [hrec]; rfl)

/-- **C10**: with an HQ that has a planet id, `run_simulation` hands
that id to the top-level resolution (`topLevelPreferred`), the resolver
consumes no RNG draws — the planet selector is never consulted for the
final material or anything below it — and whenever it answers PRODUCE
the chosen production planet is the HQ planet, whatever the HQ
planet's suitability. -/
theorem claim10_hq_planet (st : SimulationState) (ticker : String) (now : Int)
    (rng : RNG) (hq : CompanyHQ) (pid : String)
    (h1 : st.company.hq = some hq) (h2 : hq.PlanetId = some pid) :
    topLevelPreferred st = some pid ∧
    (calcCost ticker st 0 3 (topLevelPreferred st) true now rng).2 = rng ∧
    ((calcCost ticker st 0 3 (topLevelPreferred st) true now rng).1.source = "PRODUCE" →
      (calcCost ticker st 0 3 (topLevelPreferred st) true now rng).1.planetId = some pid) := by
  have hpref : topLevelPreferred st = some pid := by
    unfold topLevelPreferred
    rw [h1]
    exact h2
  refine ⟨hpref, ?_, ?_⟩
  · rw [hpref]
    exact calcCostGo_rng_pres st 3 now 5 ticker 0 pid true rng
  · rw [hpref]
    rw [calcCost_unfold ticker st 0 3 (some pid) true now rng (by omega)]
    exact calcCostBody_planet_inv _ ticker st pid true now rng

/-- Witness for C10 on a concrete state whose HQ planet is `P1`. -/
theorem claim10_witness :
    topLevelPreferred stateBuyCheaper = some "P1" ∧
    (calcCost "RAT" stateBuyCheaper 0 3 (topLevelPreferred stateBuyCheaper) true 0
      [7, 8, 9]).2 = [7, 8, 9] ∧
    ((calcCost "RAT" stateBuyCheaper 0 3 (topLevelPreferred stateBuyCheaper) true 0
        [7, 8, 9]).1.source = "PRODUCE" →
      (calcCost "RAT" stateBuyCheaper 0 3 (topLevelPreferred stateBuyCheaper) true 0
        [7, 8, 9]).1.planetId = some "P1") :=
  claim10_hq_planet stateBuyCheaper "RAT" 0 [7, 8, 9] ⟨some "P1"⟩ "P1" rfl rfl

/-! ## C9 -/

/-- The planet-id fix-up applied to inherited sub-buildings never
changes their ticker. -/
theorem fixup_ticker (planetId planetFor : Option String) (sb : RecommendedBuilding) :
    (if sb.planet_id = none then
      { sb with planet_id := pyOrOptStr planetId planetFor }
     else sb).building_ticker = sb.building_ticker := by
  split <;> rfl

/-- Every sub-building returned by the input loop has a catalog entry,
provided the recursive resolver and the accumulator guarantee it. -/
theorem evalInputs_subs_found (st : SimulationState)
    (recur : String → Option String → RNG → CostResult × RNG)
    (planetFor : Option String)
    (hrec : ∀ t pl r b, b ∈ (recur t pl r).1.subBuildings →
      (st.static_buildings.lookup b.building_ticker).isSome) :
    ∀ (inputs : List RecipeInput) (rng : RNG) (c : ℚ) (s : List RecommendedBuilding),
      (∀ b ∈ s, (st.static_buildings.lookup b.building_ticker).isSome) →
      ∀ q, (evalInputs recur planetFor inputs rng c s).1 = some q →
        ∀ b ∈ q.2, (st.static_buildings.lookup b.building_ticker).isSome := by
  intro inputs
  induction inputs with
  | nil =>
    intro rng c s hs q hq b hb
    simp only [evalInputs, Option.some.injEq] at hq
    rw [← hq] at hb
    exact hs b hb
  | cons i rest ih =>
    intro rng c s hs q hq b hb
    simp only [evalInputs] at hq
    rcases hc : recur i.MaterialTicker planetFor rng with ⟨res, rng1⟩
    rw [hc] at hq
    dsimp only at hq
    rcases hcost : res.cost with _ | cv
    · rw [hcost] at hq
      simp at hq
    · rw [hcost] at hq
      refine ih rng1 _ _ ?_ q hq b hb
      intro b' hb'
      rcases List.mem_append.mp hb' with h1 | h2
      · exact hs b' h1
      · rcases List.mem_map.mp h2 with ⟨sb, hsb, hfix⟩
        have ht : b'.building_ticker = sb.building_ticker := by
          rw [← hfix]
          exact fixup_ticker res.planetId planetFor sb
        rw [ht]
        refine hrec i.MaterialTicker planetFor rng sb ?_
        rw [hc]
        exact hsb

/-- Every recorded best-sub-building in the recipe loop has a catalog
entry, under the same guarantees. -/
theorem evalRecipes_subs_found (st : SimulationState)
    (recur : String → Option String → RNG → CostResult × RNG)
    (ticker : String) (preferred : Option String) (now : Int)
    (hrec : ∀ t pl r b, b ∈ (recur t pl r).1.subBuildings →
      (st.static_buildings.lookup b.building_ticker).isSome) :
    ∀ (recipes : List Recipe) (acc : ProdEval) (rng : RNG),
      (∀ b ∈ acc.bestSubs, (st.static_buildings.lookup b.building_ticker).isSome) →
      ∀ b ∈ (evalRecipes recur st ticker preferred now recipes acc rng).1.bestSubs,
        (st.static_buildings.lookup b.building_ticker).isSome := by
  intro recipes
  induction recipes with
  | nil => intro acc rng h; simpa [evalRecipes] using h
  | cons recipe rest ih =>
    intro acc rng h
    simp only [evalRecipes]
    split
    · exact ih _ _ h
    · rename_i planetStep planetFor rng1 hps
      rcases hin : evalInputs recur planetFor recipe.Inputs rng1 0 [] with ⟨q, rng2⟩
      rcases q with _ | ⟨tic, subs⟩
      · exact ih _ _ h
      · rcases hlk : st.static_buildings.lookup recipe.BuildingTicker with _ | bdef
        · simp only [hlk]; exact ih _ _ h
        · simp only [hlk]
          split
          · split
            · refine ih _ _ ?_
              intro b hb
              refine evalInputs_subs_found st recur planetFor hrec recipe.Inputs rng1 0 []
                (by intro b' hb'; simp at hb') (tic, subs) ?_ b hb
              rw [hin]
            · exact ih _ _ h
          · exact ih _ _ h

/-- Every sub-building the resolver hands back has an entry in the
static building catalog (the resolver only ever appends
catalog-checked buildings, lines 478-481, 543-555, 567-579). -/
theorem calcCostGo_subs_found (st : SimulationState) (maxD : ℕ) (now : Int) :
    ∀ (fuel : ℕ) (ticker : String) (depth : ℕ) (pref : Option String) (fin : Bool)
      (rng : RNG) (b : RecommendedBuilding),
      b ∈ (calcCostGo st maxD now fuel ticker depth pref fin rng).1.subBuildings →
      (st.static_buildings.lookup b.building_ticker).isSome := by
  intro fuel
  induction fuel with
  | zero =>
    intro ticker depth pref fin rng b hb
    unfold calcCostGo depthGuardResult at hb
    split at hb <;> simp at hb
  | succ n ih =>
    intro ticker depth pref fin rng b hb
    rw [calcCostGo] at hb
    split at hb
    · unfold depthGuardResult at hb
      split at hb <;> simp at hb
    · unfold calcCostBody at hb
      rcases hE : evalRecipes (fun t pl r => calcCostGo st maxD now n t (depth + 1) pl false r)
          st ticker pref now (producingRecipes st ticker) ProdEval.init rng with ⟨pe, rng1⟩
      rw [hE] at hb
      dsimp only at hb
      have hpe : ∀ b' ∈ pe.bestSubs, (st.static_buildings.lookup b'.building_ticker).isSome := by
        intro b' hb'
        have h2 := evalRecipes_subs_found st
          (fun t pl r => calcCostGo st maxD now n t (depth + 1) pl false r)
          ticker pref now (fun t pl r b'' hb'' => ih t (depth + 1) pl false r b'' hb'')
          (producingRecipes st ticker) ProdEval.init rng (by intro b'' hb''; simp [ProdEval.init] at hb'')
        rw [hE] at h2
        exact h2 b' hb'
      have happend : ∀ b' ∈ appendBestBuilding st pe,
          (st.static_buildings.lookup b'.building_ticker).isSome := by
        intro b' hb'
        unfold appendBestBuilding at hb'
        rcases hbt : pe.bestTicker with _ | bt
        · rw [hbt] at hb'; exact hpe b' hb'
        · rw [hbt] at hb'
          dsimp only at hb'
          by_cases hbe : bt == ""
          · rw [if_pos hbe] at hb'
            exact hpe b' hb'
          · rw [if_neg hbe] at hb'
            rcases hlk : st.static_buildings.lookup bt with _ | bdef
            · rw [hlk] at hb'
              exact hpe b' hb'
            · rw [hlk] at hb'
              rcases List.mem_append.mp hb' with h1 | h2
              · exact hpe b' h1
              · simp at h2
                rw [h2]
                simp [hlk]
      cases fin
      · rw [if_neg (by simp : ¬(false = true))] at hb
        split at hb
        · simp at hb
        · exact happend b hb
      · rw [if_pos rfl] at hb
        split at hb
        · exact happend b hb
        · simp at hb

/-- The chain-allocation loop can only fail at the unguarded catalog
lookup of line 655; with every chain ticker in the catalog it returns
`ok`. -/
theorem allocateChain_ok (st : SimulationState) (numCS : ℕ) (now : Int) :
    ∀ (subs : List RecommendedBuilding) (pm : List (String × RecommendedPlanet))
      (ov : ℚ) (rng : RNG) (uuids : List String),
      (∀ b ∈ subs, (st.static_buildings.lookup b.building_ticker).isSome) →
      ∃ out, allocateChain st numCS now subs pm ov rng uuids = .ok out := by
  intro subs
  induction subs with
  | nil => intro pm ov rng uuids _; exact ⟨_, rfl⟩
  | cons sub rest ih =>
    intro pm ov rng uuids hs
    simp only [allocateChain]
    rcases hlk : st.static_buildings.lookup sub.building_ticker with _ | bdef
    · have h2 := hs sub (by simp)
      rw [hlk] at h2
      simp at h2
    · exact ih _ _ _ _ (fun b hb => hs b (by simp [hb]))

/-- **C9**: `run_simulation` never raises for domain-level gaps: on
every input snapshot it returns a `Recommendation`.  Missing
recipe/building definitions referenced by production orders are
skipped inside `calculate_current_production`, and the one unguarded
lookup (line 655) can never see a ticker outside the catalog because
the resolver only emits catalog-checked chain buildings. -/
theorem claim9_never_raises (st : SimulationState) (ticker : String) (target : ℚ)
    (goal : Option String) (now : Int) (rng : RNG) (uuids : List String) :
    ∃ rec, run_simulation st ticker target goal now rng uuids = .ok rec := by
  unfold run_simulation
  by_cases hg : target - calculate_current_production st ticker none > 0
  · rw [if_pos hg]
    have hcore : ∃ out, coreStage st ticker
        (target - calculate_current_production st ticker none) now rng uuids = .ok out := by
      unfold coreStage
      rcases hc : calcCost ticker st 0 3 (topLevelPreferred st) true now rng with ⟨res, rng1⟩
      dsimp only
      rcases hS : res.source == "PRODUCE"
      · rw [if_neg (by simp [hS])]
        split
        · exact ⟨_, rfl⟩
        · exact ⟨_, rfl⟩
      · rw [if_pos (by simp_all)]
        by_cases hr : topLevelRate st ticker > 0
        · rw [if_pos hr]
          refine allocateChain_ok st _ now res.subBuildings [] 0 rng1 uuids ?_
          intro b hb
          have hb' : b ∈ (calcCost ticker st 0 3 (topLevelPreferred st) true now rng).1.subBuildings := by
            rw [hc]
            exact hb
          exact calcCostGo_subs_found st 3 now (3 + 2 - 0) ticker 0
            (topLevelPreferred st) true rng b hb'
        · rw [if_neg hr]
          exact ⟨_, rfl⟩
    rcases hcore with ⟨out, hout⟩
    rw [hout]
    exact ⟨_, rfl⟩
  · rw [if_neg hg]
    exact ⟨_, rfl⟩

/-! ## Permit arithmetic (C6, C7) -/

/-- Closed form of `permitsToBuy`: both source branches compute
`min(2, max(0, int(deficit/250 + 0.99)))`, and the no-deficit branch
agrees with it. -/
theorem permitsToBuy_eq (a : ℚ) :
    permitsToBuy a = Int.toNat (min 2 (max 0 ⌊(a - 500) / 250 + 99 / 100⌋)) := by
  unfold permitsToBuy BASE_MAX_AREA_FIRST_PERMIT ADDITIONAL_AREA_PER_PERMIT
    MAX_ADDITIONAL_PERMITS
  dsimp only
  split
  · rfl
  · split
    · rfl
    · rename_i h1 h2
      have hle : a - 500 ≤ 0 := not_lt.mp h2
      have hx : (a - 500) / 250 + 99 / 100 ≤ 99 / 100 := by
        have hdiv : (a - 500) / 250 ≤ 0 :=
          div_nonpos_of_nonpos_of_nonneg hle (by norm_num)
        linarith
      have hfl : ⌊(a - 500) / 250 + 99 / 100⌋ ≤ 0 := by
        calc ⌊(a - 500) / 250 + 99 / 100⌋ ≤ ⌊(99 : ℚ) / 100⌋ := Int.floor_le_floor hx
        _ = 0 := by decide
      rw [max_eq_left hfl]
      decide

/-- The code never recommends more than 2 additional permits. -/
theorem permitsToBuy_le_two (a : ℚ) : permitsToBuy a ≤ 2 := by
  rw [permitsToBuy_eq]
  have h1 : min 2 (max 0 ⌊(a - 500) / 250 + 99 / 100⌋) ≤ (2 : ℤ) := min_le_left _ _
  calc Int.toNat (min 2 (max 0 ⌊(a - 500) / 250 + 99 / 100⌋)) ≤ Int.toNat 2 :=
        Int.toNat_le_toNat h1
    _ = 2 := rfl

/-- Within the 1000-unit maximum the bought permits cover the site area
to within 2.5 units (the `int(x + 0.99)` rounding can fall short of a
true ceiling by one permit when the fractional part of `deficit/250`
is below 1/100). -/
theorem permitsToBuy_covers (a : ℚ) (h : a ≤ 1000) :
    a ≤ 500 + 250 * (permitsToBuy a : ℚ) + 5 / 2 := by
  rw [permitsToBuy_eq]
  by_cases h5 : a ≤ 500
  · have : (0 : ℚ) ≤ (Int.toNat (min 2 (max 0 ⌊(a - 500) / 250 + 99 / 100⌋)) : ℚ) := by
      positivity
    linarith
  · push_neg at h5
    set x : ℚ := (a - 500) / 250 with hx
    have hx0 : 0 < x := div_pos (by linarith) (by norm_num)
    have hx2 : x ≤ 2 := by
      rw [hx, div_le_iff₀ (by norm_num : (0:ℚ) < 250)]
      linarith
    have hF0 : 0 ≤ ⌊x + 99 / 100⌋ := Int.floor_nonneg.mpr (by linarith)
    have hF2 : ⌊x + 99 / 100⌋ ≤ 2 := by
      have h3 : ⌊x + 99 / 100⌋ < (3 : ℤ) := Int.floor_lt.mpr (by push_cast; linarith)
      omega
    have hmm : min 2 (max 0 ⌊x + 99 / 100⌋) = ⌊x + 99 / 100⌋ := by
      rw [max_eq_right hF0, min_eq_right hF2]
    rw [hmm]
    have hcast : ((Int.toNat ⌊x + 99 / 100⌋ : ℕ) : ℚ) = (⌊x + 99 / 100⌋ : ℚ) := by
      exact_mod_cast Int.toNat_of_nonneg hF0
    rw [hcast]
    have hlt : x + 99 / 100 - 1 < (⌊x + 99 / 100⌋ : ℚ) := Int.sub_one_lt_floor _
    have : a = 500 + 250 * x := by
      rw [hx]
      field_simp
    linarith

/-- `permitsToBuy` is 0 whenever the site area does not exceed the
500-unit base. -/
theorem permitsToBuy_zero (a : ℚ) (h : a ≤ 500) : permitsToBuy a = 0 := by
  unfold permitsToBuy BASE_MAX_AREA_FIRST_PERMIT ADDITIONAL_AREA_PER_PERMIT
    MAX_ADDITIONAL_PERMITS
  norm_num
  rw [if_neg (by linarith), if_neg (by linarith)]

/-- Every successful run's planet list is the permit pass applied to
the housing-stage planets, and the final total adds exactly the permit
cost of each planet. -/
theorem run_planets_structure (st : SimulationState) (ticker : String) (target : ℚ)
    (goal : Option String) (now : Int) (rng : RNG) (uuids : List String)
    (rec : Recommendation)
    (h : run_simulation st ticker target goal now rng uuids = .ok rec) :
    ∃ (pre : List RecommendedPlanet) (preTotal : ℚ),
      rec.recommended_planets = pre.map (applyPermits st) ∧
      rec.total_estimated_cost_credits = preTotal +
        (pre.map (fun q => (permitsToBuy (siteAreaNeeded st q) : ℚ) * PERMIT_COST)).sum := by
  unfold run_simulation at h
  by_cases hg : target - calculate_current_production st ticker none > 0
  · rw [if_pos hg] at h
    rcases hcs : coreStage st ticker (target - calculate_current_production st ticker none)
        now rng uuids with out | err
    · rw [hcs] at h
      simp [Except.map] at h
    · rw [hcs] at h
      simp only [Except.map, Except.ok.injEq] at h
      rcases hH : housingStage st goal err.1 err.2.1 with ⟨pm2, cost2⟩
      rw [hH] at h
      refine ⟨pm2.map (fun e => e.2), cost2, ?_, ?_⟩
      · rw [← h]
        unfold permitStage
        dsimp only
        rw [List.map_map, List.map_map]
        rfl
      · rw [← h]
        unfold permitStage
        dsimp only
        rw [List.map_map]
        rfl
  · rw [if_neg hg] at h
    simp only [Except.ok.injEq] at h
    refine ⟨[], 0, ?_, ?_⟩ <;> rw [← h] <;> simp

/-! ## C6 -/

/-- Counterexample to **C6** as stated: a single 726-area building
makes the site area 751, for which `ceil((751-500)/250) = 2` permits
would be needed, but the run recommends only 1 (`int(251/250 + 0.99) =
int(1.994) = 1`), observable as a 50000 (not 100000) total with all
building costs zero. -/
theorem claim6_counterexample :
    (run_simulation state726 "RAT" 10 none 0 [0, 0, 0, 0] ["aaaaaaaa"]).toOption.map
        (fun r => (r.total_estimated_cost_credits,
          r.recommended_planets.map (fun p => siteAreaNeeded state726 p))) =
      some (50000, [751]) ∧
    Int.toNat ⌈((751 : ℚ) - 500) / 250⌉ = 2 ∧
    (50000 : ℚ) ≠ 2 * PERMIT_COST := by
  refine ⟨by decide, by decide, by unfold PERMIT_COST; norm_num⟩

/-- **C6 (amended)**: for every recommended planet in the final output,
the permits recommended equal `min(2, max(0, ⌊(areaConsumed − 500)/250
+ 0.99⌋))` — the true ceiling except when the fractional part of
`(areaConsumed − 500)/250` lies in (0, 1/100) — and 0 when
`areaConsumed ≤ 500`, where `areaConsumed` is the buildings' area plus
the 25-unit site base; each permit adds exactly 50000 to that planet's
cost total and to the overall total. -/
theorem claim6_permit_formula (st : SimulationState) (ticker : String) (target : ℚ)
    (goal : Option String) (now : Int) (rng : RNG) (uuids : List String)
    (rec : Recommendation)
    (h : run_simulation st ticker target goal now rng uuids = .ok rec) :
    (∃ (pre : List RecommendedPlanet) (preTotal : ℚ),
      rec.recommended_planets = pre.map (applyPermits st) ∧
      rec.total_estimated_cost_credits = preTotal +
        (pre.map (fun q => (permitsToBuy (siteAreaNeeded st q) : ℚ) * PERMIT_COST)).sum ∧
      ∀ q ∈ pre,
        (applyPermits st q).total_estimated_cost_credits_on_planet =
          q.total_estimated_cost_credits_on_planet +
            (permitsToBuy (siteAreaNeeded st q) : ℚ) * PERMIT_COST ∧
        siteAreaNeeded st (applyPermits st q) = siteAreaNeeded st q) ∧
    (∀ a : ℚ,
      permitsToBuy a = Int.toNat (min 2 (max 0 ⌊(a - 500) / 250 + 99 / 100⌋)) ∧
      (a ≤ 500 → permitsToBuy a = 0)) := by
  constructor
  · obtain ⟨pre, preTotal, h1, h2⟩ :=
      run_planets_structure st ticker target goal now rng uuids rec h
    exact ⟨pre, preTotal, h1, h2, fun q _ => ⟨rfl, rfl⟩⟩
  · intro a
    exact ⟨permitsToBuy_eq a, permitsToBuy_zero a⟩

/-- Witness for C6 (amended) on the concrete 726-area run. -/
theorem claim6_witness :
    run_simulation state726 "RAT" 10 none 0 [0, 0, 0, 0] ["aaaaaaaa"] = .ok rec726 ∧
    ((∃ (pre : List RecommendedPlanet) (preTotal : ℚ),
      rec726.recommended_planets = pre.map (applyPermits state726) ∧
      rec726.total_estimated_cost_credits = preTotal +
        (pre.map (fun q =>
          (permitsToBuy (siteAreaNeeded state726 q) : ℚ) * PERMIT_COST)).sum ∧
      ∀ q ∈ pre,
        (applyPermits state726 q).total_estimated_cost_credits_on_planet =
          q.total_estimated_cost_credits_on_planet +
            (permitsToBuy (siteAreaNeeded state726 q) : ℚ) * PERMIT_COST ∧
        siteAreaNeeded state726 (applyPermits state726 q) = siteAreaNeeded state726 q) ∧
    (∀ a : ℚ,
      permitsToBuy a = Int.toNat (min 2 (max 0 ⌊(a - 500) / 250 + 99 / 100⌋)) ∧
      (a ≤ 500 → permitsToBuy a = 0))) :=
  ⟨by decide,
    claim6_permit_formula state726 "RAT" 10 none 0 [0, 0, 0, 0] ["aaaaaaaa"] rec726
      (by decide)⟩

/-! ## C7 -/

/-- Counterexample to **C7** as stated: the 726-area run yields a
planet whose site area 751 exceeds the 750 units covered by its single
recommended permit (the rounding `int(251/250 + 0.99) = 1` falls one
permit short of covering the excess). -/
theorem claim7_counterexample :
    (run_simulation state726 "RAT" 10 none 0 [0, 0, 0, 0] ["aaaaaaaa"]).toOption.map
        (fun r => r.recommended_planets.map (fun p =>
          (siteAreaNeeded state726 p, p.total_estimated_cost_credits_on_planet))) =
      some [(751, 50000)] ∧
    permitsToBuy 751 = 1 ∧
    ¬ ((751 : ℚ) ≤ 500 + 250 * 1) := by
  refine ⟨by decide, by decide, by norm_num⟩

/-- **C7 (amended)**: for every recommended planet in the output the
permit recommendation is capped at 2, and — for sites within the
1000-unit maximum — covers the site area (building areas plus the
25-unit overhead) to within 2.5 area units; the `int(x + 0.99)`
rounding can leave up to that much uncovered, and each planet's final
cost carries exactly its permit cost. -/
theorem claim7_area_invariant (st : SimulationState) (ticker : String) (target : ℚ)
    (goal : Option String) (now : Int) (rng : RNG) (uuids : List String)
    (rec : Recommendation)
    (h : run_simulation st ticker target goal now rng uuids = .ok rec) :
    ∀ p ∈ rec.recommended_planets,
      permitsToBuy (siteAreaNeeded st p) ≤ 2 ∧
      (siteAreaNeeded st p ≤ 1000 →
        siteAreaNeeded st p ≤ 500 + 250 * (permitsToBuy (siteAreaNeeded st p) : ℚ) + 5 / 2) ∧
      ∃ q, p = applyPermits st q ∧
        p.total_estimated_cost_credits_on_planet =
          q.total_estimated_cost_credits_on_planet +
            (permitsToBuy (siteAreaNeeded st p) : ℚ) * PERMIT_COST := by
  intro p hp
  obtain ⟨pre, preTotal, h1, h2⟩ :=
    run_planets_structure st ticker target goal now rng uuids rec h
  rw [h1] at hp
  obtain ⟨q, hq, rfl⟩ := List.mem_map.mp hp
  refine ⟨permitsToBuy_le_two _, fun hle => permitsToBuy_covers _ hle, q, rfl, rfl⟩

/-- Witness for C7 (amended) at the concrete 726-area run and its
single output planet. -/
theorem claim7_witness :
    permitsToBuy (siteAreaNeeded state726 planet726) ≤ 2 ∧
    (siteAreaNeeded state726 planet726 ≤ 1000 →
      siteAreaNeeded state726 planet726 ≤
        500 + 250 * (permitsToBuy (siteAreaNeeded state726 planet726) : ℚ) + 5 / 2) ∧
    ∃ q, planet726 = applyPermits state726 q ∧
      planet726.total_estimated_cost_credits_on_planet =
        q.total_estimated_cost_credits_on_planet +
          (permitsToBuy (siteAreaNeeded state726 planet726) : ℚ) * PERMIT_COST :=
  claim7_area_invariant state726 "RAT" 10 none 0 [0, 0, 0, 0] ["aaaaaaaa"] rec726
    (by decide) planet726 (by decide)

/-! ## C8 -/

/-- `max(1, ⌊q + 0.99⌋)` agrees with the ceiling of a positive `q`
except when the fractional part of `q` lies in (0, 1/100) with `q`
above 1. -/
theorem pyCeil_eq_ceil (q : ℚ) (hq : 0 < q)
    (h : Int.fract q = 0 ∨ 1 / 100 ≤ Int.fract q ∨ q ≤ 1) :
    max 1 (Int.toNat ⌊q + 99 / 100⌋) = Int.toNat ⌈q⌉ := by
  have hfeq : ((⌊q⌋ : ℚ) + Int.fract q) = q := Int.floor_add_fract q
  have hf0 : 0 ≤ Int.fract q := Int.fract_nonneg q
  have hf1 : Int.fract q < 1 := Int.fract_lt_one q
  have hn0 : 0 ≤ ⌊q⌋ := Int.floor_nonneg.mpr hq.le
  have hsplit : ⌊q + 99 / 100⌋ = ⌊q⌋ + ⌊Int.fract q + 99 / 100⌋ := by
    have h2 : q + 99 / 100 = (⌊q⌋ : ℚ) + (Int.fract q + 99 / 100) := by linarith
    rw [h2, Int.floor_int_add]
  by_cases hz : Int.fract q = 0
  · have hq_int : ((⌊q⌋ : ℤ) : ℚ) = q := by
      rw [hz] at hfeq
      linarith
    have hn1 : 1 ≤ ⌊q⌋ := by
      have h2 : (0 : ℚ) < ((⌊q⌋ : ℤ) : ℚ) := by rw [hq_int]; exact hq
      have h3 : (0 : ℤ) < ⌊q⌋ := by exact_mod_cast h2
      omega
    have hceil : ⌈q⌉ = ⌊q⌋ := by
      rw [Int.ceil_eq_iff]
      exact ⟨by linarith [hq_int], by linarith [hq_int]⟩
    have hfl99 : ⌊Int.fract q + 99 / 100⌋ = 0 := by
      rw [hz, zero_add]
      decide
    rw [hsplit, hfl99, add_zero, hceil]
    exact max_eq_right (by omega)
  · have hfpos : 0 < Int.fract q := lt_of_le_of_ne hf0 (Ne.symm hz)
    have hceil : ⌈q⌉ = ⌊q⌋ + 1 := by
      rw [Int.ceil_eq_iff]
      constructor
      · push_cast
        linarith
      · push_cast
        linarith
    by_cases hf99 : 1 / 100 ≤ Int.fract q
    · have hfl99 : ⌊Int.fract q + 99 / 100⌋ = 1 := by
        rw [Int.floor_eq_iff]
        constructor
        · push_cast
          linarith
        · push_cast
          linarith
      rw [hsplit, hfl99, hceil]
      exact max_eq_right (by omega)
    · push_neg at hf99
      have hq1 : q ≤ 1 := by
        rcases h with h1 | h2 | h3
        · exact absurd h1 hz
        · exact absurd h2 (not_le.mpr hf99)
        · exact h3
      have hn_zero : ⌊q⌋ = 0 := by
        have h2 : ((⌊q⌋ : ℤ) : ℚ) < 1 := by linarith
        have h3 : ⌊q⌋ < (1 : ℤ) := by exact_mod_cast h2
        omega
      have hfl99 : ⌊Int.fract q + 99 / 100⌋ = 0 := by
        rw [Int.floor_eq_iff]
        constructor
        · push_cast
          linarith
        · push_cast
          linarith
      rw [hsplit, hfl99, hceil, hn_zero]
      decide

/-- Counterexample to **C8** as stated: with a gap of 100.5 units/day
and 100 units/day per building, the code schedules
`max(1, int(1.005 + 0.99)) = 1` chain-set, not `ceil(1.005) = 2`. -/
theorem claim8_counterexample :
    (run_simulation stateRate100 "RAT" (201 / 2) none 0 [0, 0, 0, 0]
        ["aaaaaaaa"]).toOption.map
        (fun r => r.recommended_planets.map (fun p =>
          p.recommended_buildings_on_planet.map
            (fun b => (b.building_ticker, b.amount_to_build)))) =
      some [[("FP", 1)]] ∧
    Int.toNat ⌈((201 : ℚ) / 2) / 100⌉ = 2 ∧
    (1 : ℕ) ≠ 2 := by
  refine ⟨by decide, by decide, by norm_num⟩

/-- **C8 (amended)**: the chain-set count is
`max(1, ⌊gap/r + 0.99⌋)`, which equals `ceil(gap/r)` except when the
fractional part of `gap/r` lies in (0, 1/100) with `gap/r > 1`; in the
concrete 100-gap / 96-per-building scenario the two agree and exactly
2 units of the producing building `FP` are recommended. -/
theorem claim8_chain_sets :
    ((run_simulation stateFP "RAT" 100 none 0 [0, 0, 0, 0] ["aaaaaaaa"]).toOption.map
        (fun r => r.recommended_planets.map (fun p =>
          p.recommended_buildings_on_planet.map
            (fun b => (b.building_ticker, b.amount_to_build)))) =
      some [[("FP", 2)]] ∧ numChainSets 100 96 = 2) ∧
    ∀ gap rate : ℚ, 0 < gap → 0 < rate →
      (Int.fract (gap / rate) = 0 ∨ 1 / 100 ≤ Int.fract (gap / rate) ∨ gap / rate ≤ 1) →
      numChainSets gap rate = Int.toNat ⌈gap / rate⌉ := by
  refine ⟨⟨by decide, by decide⟩, ?_⟩
  intro gap rate hg hr h
  unfold numChainSets
  exact pyCeil_eq_ceil (gap / rate) (div_pos hg hr) h

/-- Witness for C8 (amended) at gap 100 and rate 96
(`fract(100/96) = 1/24 ≥ 1/100`). -/
theorem claim8_witness :
    0 < (100 : ℚ) ∧ 0 < (96 : ℚ) ∧
    numChainSets 100 96 = Int.toNat ⌈(100 : ℚ) / 96⌉ :=
  ⟨by norm_num, by norm_num,
    claim8_chain_sets.2 100 96 (by norm_num) (by norm_num)
      (Or.inr (Or.inl (by decide)))⟩

end PUNoted
